import Mathlib

/-!
# emux NES APU and sprite DMA: a shallow embedding

The definitions below embed `controllers/audio/apu.c` and
`controllers/dma/nes_sprite.c` as pure functions on an explicit state record.
Machine integers are natural numbers (`uint8_t`, `uint16_t`, reduced modulo
`2^8` / `2^16` wherever the C code can wrap) or integers (`int`).  Bit-fields
are read with `/` and `%` on the byte that holds them, the first declared
field occupying the least significant bits.
-/

namespace Emux

/-! ## Constants -/

abbrev NUM_REGS : Nat := 20
abbrev PULSE1_MAIN : Nat := 0x00
abbrev PULSE1_SWEEP : Nat := 0x01
abbrev PULSE1_TIMER_LOW : Nat := 0x02
abbrev PULSE1_TIMER_HIGH : Nat := 0x03
abbrev PULSE2_MAIN : Nat := 0x04
abbrev PULSE2_SWEEP : Nat := 0x05
abbrev PULSE2_TIMER_LOW : Nat := 0x06
abbrev PULSE2_TIMER_HIGH : Nat := 0x07
abbrev NUM_PULSE_STEPS : Nat := 8

/-! ## Bit-field views of register bytes -/

namespace pulse_main

/-- Bits 0..3 of the pulse main register. -/
@[simp] def vol_env (x : Nat) : Nat := x % 16

/-- Bit 4 of the pulse main register. -/
@[simp] def constant_vol (x : Nat) : Nat := x / 16 % 2

/-- Bit 5 of the pulse main register (envelope loop / length counter halt). -/
@[simp] def env_loop_len_counter_halt (x : Nat) : Nat := x / 32 % 2

/-- Bits 6..7 of the pulse main register. -/
@[simp] def duty (x : Nat) : Nat := x / 64 % 4

end pulse_main

namespace pulse_sweep

/-- Bits 0..2 of the pulse sweep register. -/
@[simp] def shift (x : Nat) : Nat := x % 8

/-- Bit 3 of the pulse sweep register. -/
@[simp] def negate (x : Nat) : Nat := x / 8 % 2

/-- Bits 4..6 of the pulse sweep register. -/
@[simp] def period (x : Nat) : Nat := x / 16 % 8

/-- Bit 7 of the pulse sweep register. -/
@[simp] def enabled (x : Nat) : Nat := x / 128 % 2

end pulse_sweep

namespace pulse_timer_high

/-- Bits 0..2 of the pulse timer-high register. -/
@[simp] def timer_high (x : Nat) : Nat := x % 8

/-- Bits 3..7 of the pulse timer-high register. -/
@[simp] def len_counter_load (x : Nat) : Nat := x / 8 % 32

/-- Assignment to the 3-bit `timer_high` field: the value is truncated to
three bits and the `len_counter_load` bits are kept. -/
@[simp] def set_timer_high (x v : Nat) : Nat := x - x % 8 + v % 8

end pulse_timer_high

namespace apu_ctrl

/-- Bit 0 of the control register. -/
@[simp] def pulse1_len_counter_en (x : Nat) : Nat := x % 2

/-- Bit 1 of the control register. -/
@[simp] def pulse2_len_counter_en (x : Nat) : Nat := x / 2 % 2

end apu_ctrl

namespace apu_stat

/-- Bit 0 of the status register. -/
@[simp] def pulse1_len_counter_stat (x : Nat) : Nat := x % 2

/-- Bit 1 of the status register. -/
@[simp] def pulse2_len_counter_stat (x : Nat) : Nat := x / 2 % 2

/-- Bit 6 of the status register. -/
@[simp] def frame_interrupt (x : Nat) : Nat := x / 64 % 2

/-- Assignment to the 1-bit field `pulse1_len_counter_stat`. -/
@[simp] def set_pulse1_len_counter_stat (x v : Nat) : Nat := x - x % 2 + v % 2

/-- Assignment to the 1-bit field `pulse2_len_counter_stat`. -/
@[simp] def set_pulse2_len_counter_stat (x v : Nat) : Nat :=
  x - (x / 2 % 2) * 2 + (v % 2) * 2

/-- Assignment to the 1-bit field `frame_interrupt`. -/
@[simp] def set_frame_interrupt (x v : Nat) : Nat :=
  x - (x / 64 % 2) * 64 + (v % 2) * 64

end apu_stat

namespace seq

/-- Bit 6 of the frame sequencer register. -/
@[simp] def int_inhibit (x : Nat) : Nat := x / 64 % 2

/-- Bit 7 of the frame sequencer register. -/
@[simp] def mode (x : Nat) : Nat := x / 128 % 2

end seq

/-! ## State -/

/-- The register file `struct apu_regs`: twenty raw bytes and the control,
status and sequencer bytes. -/
structure apu_regs where
  raw : Fin NUM_REGS → Nat
  ctrl : Nat
  stat : Nat
  seq : Nat

namespace apu_regs

/-- Store into `raw[i]`. -/
def set_raw (r : apu_regs) (i : Fin NUM_REGS) (v : Nat) : apu_regs :=
  { r with raw := fun j => if j = i then v else r.raw j }

def pulse1_main (r : apu_regs) : Nat := r.raw 0
def pulse1_sweep (r : apu_regs) : Nat := r.raw 1
def pulse1_t_lo (r : apu_regs) : Nat := r.raw 2
def pulse1_t_hi (r : apu_regs) : Nat := r.raw 3
def pulse2_main (r : apu_regs) : Nat := r.raw 4
def pulse2_sweep (r : apu_regs) : Nat := r.raw 5
def pulse2_t_lo (r : apu_regs) : Nat := r.raw 6
def pulse2_t_hi (r : apu_regs) : Nat := r.raw 7

end apu_regs

/-- Runtime state of one pulse channel, `struct pulse`. -/
structure pulse where
  len_counter_silenced : Bool
  sweep_silenced : Bool
  value : Nat
  step : Nat
  volume : Nat
  counter : Nat
  len_counter : Nat
  env_start : Bool
  env_counter : Nat
  env_period : Nat
  sweep_reload : Bool
  sweep_counter : Nat
deriving DecidableEq

/-- The controller state `struct apu`, without the bus and clock plumbing:
of `seq_clock` only the `num_remaining_cycles` field written by the code is
kept. -/
structure apu where
  r : apu_regs
  pulse1 : pulse
  pulse2 : pulse
  seq_step : Int
  cycle : Int
  seq_clock_num_remaining_cycles : Int
  irq : Int

/-- Calls made to the rest of the emulator. -/
inductive host_call where
  | cpu_interrupt (irq : Int)
  | clock_consume (num_cycles : Nat)
deriving DecidableEq

/-! ## Bus handlers -/

def len_counter_table : List Nat :=
  [0x0A, 0xFE, 0x14, 0x02, 0x28, 0x04, 0x50, 0x06,
   0xA0, 0x08, 0x3C, 0x0A, 0x0E, 0x0C, 0x1A, 0x0E,
   0x0C, 0x10, 0x18, 0x12, 0x30, 0x14, 0x60, 0x16,
   0xC0, 0x18, 0x48, 0x1A, 0x10, 0x1C, 0x20, 0x1E]

/-- Write handler of the main region.  The address is an offset into the
twenty-byte region. -/
def apu_writeb (s : apu) (b : Nat) (address : Fin NUM_REGS) : apu :=
  let s := { s with r := s.r.set_raw address (b % 256) }
  if address.val = PULSE1_TIMER_HIGH then
    let s :=
      if apu_ctrl.pulse1_len_counter_en s.r.ctrl ≠ 0 then
        let id := pulse_timer_high.len_counter_load s.r.pulse1_t_hi
        { s with pulse1 := { s.pulse1 with len_counter := len_counter_table.getD id 0 } }
      else s
    { s with pulse1 := { s.pulse1 with env_start := true } }
  else if address.val = PULSE1_SWEEP then
    { s with pulse1 := { s.pulse1 with sweep_reload := true } }
  else if address.val = PULSE2_TIMER_HIGH then
    let s :=
      if apu_ctrl.pulse2_len_counter_en s.r.ctrl ≠ 0 then
        let id := pulse_timer_high.len_counter_load s.r.pulse2_t_hi
        { s with pulse2 := { s.pulse2 with len_counter := len_counter_table.getD id 0 } }
      else s
    { s with pulse2 := { s.pulse2 with env_start := true } }
  else if address.val = PULSE2_SWEEP then
    { s with pulse2 := { s.pulse2 with sweep_reload := true } }
  else s

/-- Read handler of the control/status region: the byte returned and the
state afterwards. -/
def stat_readb (s : apu) : Nat × apu :=
  let b := s.r.stat
  (b, { s with r := { s.r with stat := apu_stat.set_frame_interrupt s.r.stat 0 } })

/-- Write handler of the control/status region. -/
def ctrl_writeb (s : apu) (b : Nat) : apu :=
  let s := { s with r := { s.r with ctrl := b % 256 } }
  let s :=
    if apu_ctrl.pulse1_len_counter_en s.r.ctrl = 0 then
      { s with pulse1 := { s.pulse1 with len_counter := 0 } }
    else s
  if apu_ctrl.pulse2_len_counter_en s.r.ctrl = 0 then
    { s with pulse2 := { s.pulse2 with len_counter := 0 } }
  else s

/-- Write handler of the sequencer region. -/
def seq_writeb (s : apu) (b : Nat) : apu :=
  let s := { s with r := { s.r with seq := b % 256 } }
  let s := { s with seq_clock_num_remaining_cycles := 0, seq_step := 0 }
  if seq.int_inhibit s.r.seq ≠ 0 then
    { s with r := { s.r with stat := apu_stat.set_frame_interrupt s.r.stat 0 } }
  else s

/-! ## Per-channel accessors

The tick routines loop over `c = 1, 2` and select the channel data with
`(c == 1) ? ... : ...`. -/

def get_pulse (s : apu) (c : Nat) : pulse :=
  if c = 1 then s.pulse1 else s.pulse2

def set_pulse (s : apu) (c : Nat) (p : pulse) : apu :=
  if c = 1 then { s with pulse1 := p } else { s with pulse2 := p }

def get_p_main (s : apu) (c : Nat) : Nat :=
  if c = 1 then s.r.pulse1_main else s.r.pulse2_main

def get_sweep (s : apu) (c : Nat) : Nat :=
  if c = 1 then s.r.pulse1_sweep else s.r.pulse2_sweep

def get_t_lo (s : apu) (c : Nat) : Nat :=
  if c = 1 then s.r.pulse1_t_lo else s.r.pulse2_t_lo

def get_t_hi (s : apu) (c : Nat) : Nat :=
  if c = 1 then s.r.pulse1_t_hi else s.r.pulse2_t_hi

/-- Store through the `t_lo` pointer. -/
def set_t_lo (s : apu) (c : Nat) (v : Nat) : apu :=
  { s with r := s.r.set_raw (if c = 1 then 2 else 6) v }

/-- Store through the `t_hi` pointer. -/
def set_t_hi (s : apu) (c : Nat) (v : Nat) : apu :=
  { s with r := s.r.set_raw (if c = 1 then 3 else 7) v }

/-! ## Timer and duty sequencer -/

/-- The duty switch of `pulse_update`: the value for duty selector `duty` at
step `st`. -/
def duty_value (duty st : Nat) : Nat :=
  if duty = 0 then (if st = 1 then 1 else 0)
  else if duty = 1 then (if st = 1 ∨ st = 2 then 1 else 0)
  else if duty = 2 then (if 1 ≤ st ∧ st ≤ 4 then 1 else 0)
  else (if st = 0 ∨ 3 ≤ st then 1 else 0)

/-- Loop body of `pulse_update` for channel `c`. -/
def pulse_update_ch (s : apu) (c : Nat) : apu :=
  let p := get_pulse s c
  let p_main := get_p_main s c
  let t_lo := get_t_lo s c
  let t_hi := get_t_hi s c
  if p.len_counter_silenced || p.sweep_silenced then
    set_pulse s c { p with value := 0 }
  else
    let p :=
      if p.counter = 0 then
        let period := (t_lo ||| (pulse_timer_high.timer_high t_hi <<< 8)) % 65536
        let st := p.step
        let step1 := (p.step + 1) % 256
        { p with
          counter := period
          value := duty_value (pulse_main.duty p_main) st
          step := if step1 = NUM_PULSE_STEPS then 0 else step1 }
      else p
    set_pulse s c { p with counter := (p.counter + 65535) % 65536 }

def pulse_update (s : apu) : apu :=
  pulse_update_ch (pulse_update_ch s 1) 2

/-- Sample clock callback.  The mixed sample handed to the audio frontend is
computed in floating point from `value` and `volume` and does not feed back
into the state; it is not part of this model. -/
def apu_tick (s : apu) : apu × List host_call :=
  let s := { s with cycle := s.cycle + 1 }
  let s := if s.cycle = 2 then { pulse_update s with cycle := 0 } else s
  (s, [host_call.clock_consume 1])

/-! ## Length counter -/

/-- Loop body of `length_counter_tick` for channel `c`. -/
def length_counter_tick_ch (s : apu) (c : Nat) : apu :=
  let p := get_pulse s c
  let p_main := get_p_main s c
  let halt := pulse_main.env_loop_len_counter_halt p_main ≠ 0
  let silenced := decide (p.len_counter = 0 ∧ ¬ halt)
  let p := { p with len_counter_silenced := silenced }
  let p :=
    if ¬ halt ∧ p.len_counter ≠ 0 then
      { p with len_counter := (p.len_counter + 255) % 256 }
    else p
  set_pulse s c p

def length_counter_tick (s : apu) : apu :=
  let s := length_counter_tick_ch (length_counter_tick_ch s 1) 2
  let s := { s with r := { s.r with stat :=
    apu_stat.set_pulse1_len_counter_stat s.r.stat (if s.pulse1.len_counter > 0 then 1 else 0) } }
  { s with r := { s.r with stat :=
    apu_stat.set_pulse2_len_counter_stat s.r.stat (if s.pulse2.len_counter > 0 then 1 else 0) } }

/-! ## Volume envelope -/

/-- Loop body of `vol_env_tick` for channel `c`. -/
def vol_env_tick_ch (s : apu) (c : Nat) : apu :=
  let p := get_pulse s c
  let p_main := get_p_main s c
  let p :=
    if ¬ p.env_start then
      if p.env_period ≠ 0 then
        { p with env_period := (p.env_period + 255) % 256 }
      else
        let p := { p with env_period := pulse_main.vol_env p_main }
        if p.env_counter ≠ 0 then
          { p with env_counter := (p.env_counter + 255) % 256 }
        else if pulse_main.env_loop_len_counter_halt p_main ≠ 0 then
          { p with env_counter := 15 }
        else p
    else
      { p with env_start := false, env_counter := 15, env_period := pulse_main.vol_env p_main }
  let p :=
    if pulse_main.constant_vol p_main ≠ 0 then
      { p with volume := pulse_main.vol_env p_main }
    else
      { p with volume := p.env_counter }
  set_pulse s c p

def vol_env_tick (s : apu) : apu :=
  vol_env_tick_ch (vol_env_tick_ch s 1) 2

/-! ## Sweep unit -/

/-- The value `current_period` of `sweep_tick` (a `uint16_t`). -/
def sweep_current_period (t_lo t_hi : Nat) : Nat :=
  (t_lo ||| (pulse_timer_high.timer_high t_hi <<< 8)) % 65536

/-- The value `target_period` of `sweep_tick` for channel `c` once the
channel-1 adjustment has been applied.  The sum is formed in `int` and
stored into a `uint16_t`. -/
def sweep_target_period (c : Nat) (sweep current_period : Nat) : Nat :=
  let res := (current_period >>> pulse_sweep.shift sweep) % 65536
  let target_period :=
    Int.toNat (((current_period : Int) +
      (if pulse_sweep.negate sweep ≠ 0 then -(res : Int) else (res : Int))) % 65536)
  if c = 1 ∧ pulse_sweep.negate sweep ≠ 0 then (target_period + 1) % 65536
  else target_period

/-- Loop body of `sweep_tick` for channel `c`. -/
def sweep_tick_ch (s : apu) (c : Nat) : apu :=
  let p := get_pulse s c
  let sweep := get_sweep s c
  let t_lo := get_t_lo s c
  let t_hi := get_t_hi s c
  let reload := p.sweep_reload
  let counter := p.sweep_counter
  let adjust_period := false
  let adjust_period :=
    if reload then
      (if counter = 0 ∧ pulse_sweep.enabled sweep ≠ 0 then true else adjust_period)
    else adjust_period
  let p :=
    if reload then
      { p with sweep_counter := pulse_sweep.period sweep, sweep_reload := false }
    else p
  let p :=
    if ¬ reload ∧ counter ≠ 0 then
      { p with sweep_counter := (p.sweep_counter + 255) % 256 }
    else p
  let adjust_period :=
    if ¬ reload ∧ counter = 0 ∧ pulse_sweep.enabled sweep ≠ 0 then true else adjust_period
  let p :=
    if ¬ reload ∧ counter = 0 ∧ pulse_sweep.enabled sweep ≠ 0 then
      { p with sweep_counter := pulse_sweep.period sweep }
    else p
  let current_period := sweep_current_period t_lo t_hi
  let target_period := sweep_target_period c sweep current_period
  let silenced : Bool :=
    decide (pulse_sweep.enabled sweep ≠ 0) &&
      decide (current_period < 8 ∨ target_period > 0x7FF)
  let p := { p with sweep_silenced := silenced }
  let adjust_period := adjust_period && !silenced
  let adjust_period := adjust_period && decide (pulse_sweep.enabled sweep ≠ 0)
  let adjust_period := adjust_period && decide (pulse_sweep.shift sweep ≠ 0)
  let s := set_pulse s c p
  if adjust_period then
    let s := set_t_lo s c (target_period &&& 0xFF)
    set_t_hi s c (pulse_timer_high.set_timer_high t_hi (target_period >>> 8))
  else s

def sweep_tick (s : apu) : apu :=
  sweep_tick_ch (sweep_tick_ch s 1) 2

/-! ## Frame sequencer -/

/-- Sequencer clock callback: the state afterwards and the host calls made,
in order. -/
def seq_tick (s : apu) : apu × List host_call :=
  let st := s.seq_step
  let num_steps : Int := if seq.mode s.r.seq = 0 then 4 else 5
  let f : Bool := if seq.mode s.r.seq = 0 then decide (st = 3) else false
  let l : Bool :=
    if seq.mode s.r.seq = 0 then decide (st = 1 ∨ st = 3) else decide (st = 0 ∨ st = 2)
  let e : Bool := if seq.mode s.r.seq = 0 then true else decide (st ≤ 3)
  let s := { s with seq_step := s.seq_step + 1 }
  let s := if s.seq_step = num_steps then { s with seq_step := 0 } else s
  let s :=
    if f = true ∧ seq.int_inhibit s.r.seq = 0 then
      { s with r := { s.r with stat := apu_stat.set_frame_interrupt s.r.stat 1 } }
    else s
  let calls : List host_call :=
    if apu_stat.frame_interrupt s.r.stat ≠ 0 then [host_call.cpu_interrupt s.irq] else []
  let s := if l then sweep_tick (length_counter_tick s) else s
  let s := if e then vol_env_tick s else s
  (s, calls ++ [host_call.clock_consume 1])

/-! ## Reset -/

/-- The channel state after `memset` to zero. -/
def pulse_zero : pulse :=
  { len_counter_silenced := false, sweep_silenced := false, value := 0, step := 0,
    volume := 0, counter := 0, len_counter := 0, env_start := false, env_counter := 0,
    env_period := 0, sweep_reload := false, sweep_counter := 0 }

def apu_reset (s : apu) : apu :=
  let s := { s with
    r := { raw := fun _ => 0, ctrl := 0, stat := 0, seq := 0 }
    pulse1 := pulse_zero
    pulse2 := pulse_zero
    seq_step := 0
    cycle := 0 }
  let s := { s with pulse1 := { s.pulse1 with len_counter_silenced := true } }
  let s := { s with pulse1 := { s.pulse1 with sweep_silenced := true } }
  let s := { s with pulse2 := { s.pulse2 with len_counter_silenced := true } }
  { s with pulse2 := { s.pulse2 with sweep_silenced := true } }

/-! ## Runs of the controller -/

/-- One callback invocation by the bus fabric or the scheduler. -/
inductive op where
  | main_write (b : Nat) (address : Fin NUM_REGS)
  | ctrl_write (b : Nat)
  | seq_write (b : Nat)
  | stat_read
  | sample_tick
  | sequencer_tick
deriving DecidableEq

/-- State after one callback. -/
def step (s : apu) : op → apu
  | op.main_write b address => apu_writeb s b address
  | op.ctrl_write b => ctrl_writeb s b
  | op.seq_write b => seq_writeb s b
  | op.stat_read => (stat_readb s).2
  | op.sample_tick => (apu_tick s).1
  | op.sequencer_tick => (seq_tick s).1

/-- State after a sequence of callbacks, first to last. -/
def run (s : apu) (ops : List op) : apu :=
  ops.foldl step s

/-- States the controller can be in: reset followed by any callbacks. -/
def reachable (s : apu) : Prop :=
  ∃ (s0 : apu) (ops : List op), s = run (apu_reset s0) ops

/-- State after `n` consecutive sample-clock callbacks. -/
def sample_ticks (n : Nat) (s : apu) : apu :=
  Nat.iterate (fun t => (apu_tick t).1) n s

/-- A state whose registers are all zero, for evaluating examples. -/
def apu_zero : apu :=
  { r := { raw := fun _ => 0, ctrl := 0, stat := 0, seq := 0 }
    pulse1 := pulse_zero, pulse2 := pulse_zero
    seq_step := 0, cycle := 0, seq_clock_num_remaining_cycles := 0, irq := 0 }

/-! ## Loop bodies on a single channel record

The bodies of the per-channel loops of `pulse_update` and `vol_env_tick` only
read the channel's registers and update the channel's runtime record; they are
repeated here as functions on that record, and shown below to agree with the
state-level definitions. -/

/-- Body of the `pulse_update` loop for a channel with main register `p_main`
and timer registers `t_lo`, `t_hi`. -/
def pulse_update_body (p_main t_lo t_hi : Nat) (p : pulse) : pulse :=
  if p.len_counter_silenced || p.sweep_silenced then
    { p with value := 0 }
  else
    let p :=
      if p.counter = 0 then
        let period := (t_lo ||| (pulse_timer_high.timer_high t_hi <<< 8)) % 65536
        let st := p.step
        let step1 := (p.step + 1) % 256
        { p with
          counter := period
          value := duty_value (pulse_main.duty p_main) st
          step := if step1 = NUM_PULSE_STEPS then 0 else step1 }
      else p
    { p with counter := (p.counter + 65535) % 65536 }

/-- Body of the `vol_env_tick` loop for a channel with main register
`p_main`. -/
def vol_env_tick_body (p_main : Nat) (p : pulse) : pulse :=
  let p :=
    if ¬ p.env_start then
      if p.env_period ≠ 0 then
        { p with env_period := (p.env_period + 255) % 256 }
      else
        let p := { p with env_period := pulse_main.vol_env p_main }
        if p.env_counter ≠ 0 then
          { p with env_counter := (p.env_counter + 255) % 256 }
        else if pulse_main.env_loop_len_counter_halt p_main ≠ 0 then
          { p with env_counter := 15 }
        else p
    else
      { p with env_start := false, env_counter := 15, env_period := pulse_main.vol_env p_main }
  if pulse_main.constant_vol p_main ≠ 0 then
    { p with volume := pulse_main.vol_env p_main }
  else
    { p with volume := p.env_counter }

/-! ## Sprite DMA (`controllers/dma/nes_sprite.c`) -/

abbrev DEST_ADDRESS : Nat := 0x2004

/-- The bus the DMA controller is attached to: `memory_readb` and
`memory_writeb` of `memory.h`, acting on a bus state `σ`.  A read returns a
value and the bus state afterwards (a device register may change when read). -/
structure memory_bus (σ : Type) where
  memory_readb : σ → Nat → Nat × σ
  memory_writeb : σ → Nat → Nat → σ

/-- Calls made by the DMA controller, with their arguments; a read also
records the byte it returned. -/
inductive bus_call where
  | memory_readb (address : Nat) (b : Nat)
  | memory_writeb (b : Nat) (address : Nat)
  | clock_consume (num_cycles : Nat)
deriving DecidableEq

/-- The transfer loop of `nes_sprite_writeb` with `n` iterations left: the bus
state afterwards and the calls made, in order.  `src_address` is a
`uint16_t`, `b` a `uint8_t`. -/
def nes_sprite_transfer {σ : Type} (M : memory_bus σ) : Nat → Nat → σ → σ × List bus_call
  | 0, _, st => (st, [])
  | n + 1, src_address, st =>
    let rd := M.memory_readb st src_address
    let b := rd.1 % 256
    let st := M.memory_writeb rd.2 b DEST_ADDRESS
    let rest := nes_sprite_transfer M n ((src_address + 1) % 65536) st
    (rest.1,
      bus_call.memory_readb src_address b :: bus_call.memory_writeb b DEST_ADDRESS :: rest.2)

/-- Write handler of the DMA register: the bus state afterwards and the calls
made, in order. -/
def nes_sprite_writeb {σ : Type} (M : memory_bus σ) (st : σ) (b : Nat) : σ × List bus_call :=
  let src_address := ((b % 256) <<< 8) % 65536
  let r := nes_sprite_transfer M 256 src_address st
  (r.1, r.2 ++ [bus_call.clock_consume 512])

/-- A bus that is plain memory: a read returns the stored value and changes
nothing, a write replaces the value stored at the address. -/
def plain_memory : memory_bus (Nat → Nat) where
  memory_readb := fun mem address => (mem address, mem)
  memory_writeb := fun mem b address => fun x => if x = address then b else mem x

/-! ## Framing lemmas -/

@[simp] theorem set_pulse_r (s : apu) (c : Nat) (p : pulse) : (set_pulse s c p).r = s.r := by
  unfold set_pulse; split <;> rfl

@[simp] theorem set_pulse_seq_step (s : apu) (c : Nat) (p : pulse) :
    (set_pulse s c p).seq_step = s.seq_step := by
  unfold set_pulse; split <;> rfl

@[simp] theorem set_pulse_cycle (s : apu) (c : Nat) (p : pulse) :
    (set_pulse s c p).cycle = s.cycle := by
  unfold set_pulse; split <;> rfl

@[simp] theorem set_pulse_irq (s : apu) (c : Nat) (p : pulse) :
    (set_pulse s c p).irq = s.irq := by
  unfold set_pulse; split <;> rfl

@[simp] theorem set_pulse_pulse1_one (s : apu) (p : pulse) : (set_pulse s 1 p).pulse1 = p := rfl

@[simp] theorem set_pulse_pulse2_one (s : apu) (p : pulse) :
    (set_pulse s 1 p).pulse2 = s.pulse2 := rfl

@[simp] theorem set_pulse_pulse1_two (s : apu) (p : pulse) :
    (set_pulse s 2 p).pulse1 = s.pulse1 := rfl

@[simp] theorem set_pulse_pulse2_two (s : apu) (p : pulse) : (set_pulse s 2 p).pulse2 = p := rfl

@[simp] theorem get_pulse_one (s : apu) : get_pulse s 1 = s.pulse1 := rfl

@[simp] theorem get_pulse_two (s : apu) : get_pulse s 2 = s.pulse2 := rfl

theorem apu_writeb_r (s : apu) (b : Nat) (a : Fin NUM_REGS) :
    (apu_writeb s b a).r = s.r.set_raw a (b % 256) := by
  unfold apu_writeb
  simp only []
  split_ifs <;> rfl

/-- Subtracting bit 6 of a number clears that bit and keeps every other. -/
theorem testBit_set_frame_interrupt_zero (x i : Nat) :
    (apu_stat.set_frame_interrupt x 0).testBit i = (decide (i ≠ 6) && x.testBit i) := by
  have h : apu_stat.set_frame_interrupt x 0 = 2 ^ 7 * (x >>> 7) + x % 2 ^ 6 := by
    rw [Nat.shiftRight_eq_div_pow]
    simp only [apu_stat.set_frame_interrupt]
    omega
  have hlt : x % 2 ^ 6 < 2 ^ 7 := by omega
  rw [h, Nat.testBit_mul_pow_two_add _ hlt, Nat.testBit_mod_two_pow, Nat.testBit_shiftRight]
  by_cases h7 : i < 7
  · by_cases h6 : i < 6
    · have : i ≠ 6 := by omega
      simp [h7, h6, this]
    · have : i = 6 := by omega
      simp [this]
  · have h6 : i ≠ 6 := by omega
    have e : 7 + (i - 7) = i := by omega
    simp [h7, h6, e]

theorem stat_readb_testBit (s : apu) (i : Nat) :
    (stat_readb s).2.r.stat.testBit i = (decide (i ≠ 6) && s.r.stat.testBit i) :=
  testBit_set_frame_interrupt_zero s.r.stat i

theorem apu_writeb_pulse1_timer_high (s : apu) (b : Nat) :
    apu_writeb s b 3 =
      { r := s.r.set_raw 3 (b % 256)
        pulse1 :=
          { s.pulse1 with
            len_counter :=
              if s.r.ctrl % 2 ≠ 0 then len_counter_table.getD (b % 256 / 8 % 32) 0
              else s.pulse1.len_counter
            env_start := true }
        pulse2 := s.pulse2
        seq_step := s.seq_step
        cycle := s.cycle
        seq_clock_num_remaining_cycles := s.seq_clock_num_remaining_cycles
        irq := s.irq } := by
  have h3 : ((3 : Fin NUM_REGS) : Nat) = 3 := rfl
  by_cases h : s.r.ctrl % 2 = 0
  · simp [apu_writeb, apu_regs.set_raw, h, h3]
  · simp [apu_writeb, apu_regs.set_raw, apu_regs.pulse1_t_hi, h, h3]

theorem apu_writeb_pulse2_timer_high (s : apu) (b : Nat) :
    apu_writeb s b 7 =
      { r := s.r.set_raw 7 (b % 256)
        pulse1 := s.pulse1
        pulse2 :=
          { s.pulse2 with
            len_counter :=
              if s.r.ctrl / 2 % 2 ≠ 0 then len_counter_table.getD (b % 256 / 8 % 32) 0
              else s.pulse2.len_counter
            env_start := true }
        seq_step := s.seq_step
        cycle := s.cycle
        seq_clock_num_remaining_cycles := s.seq_clock_num_remaining_cycles
        irq := s.irq } := by
  have h7 : ((7 : Fin NUM_REGS) : Nat) = 7 := rfl
  by_cases h : s.r.ctrl / 2 % 2 = 0
  · simp [apu_writeb, apu_regs.set_raw, h, h7]
  · simp [apu_writeb, apu_regs.set_raw, apu_regs.pulse2_t_hi, h, h7]

/-! ## Bus handler theorems -/

/-- C1: a main-region write of byte `b` to address `a` leaves `b` in raw slot
`a` and changes no other raw slot, nor the control, status or sequencer byte. -/
theorem apu_writeb_raw_roundtrip (s : apu) (b : Nat) (a : Fin NUM_REGS) (hb : b < 256) :
    (apu_writeb s b a).r.raw a = b ∧
    (∀ i : Fin NUM_REGS, i ≠ a → (apu_writeb s b a).r.raw i = s.r.raw i) ∧
    (apu_writeb s b a).r.ctrl = s.r.ctrl ∧
    (apu_writeb s b a).r.stat = s.r.stat ∧
    (apu_writeb s b a).r.seq = s.r.seq := by
  rw [apu_writeb_r]
  refine ⟨?_, ?_, rfl, rfl, rfl⟩
  · simp [apu_regs.set_raw, Nat.mod_eq_of_lt hb]
  · intro i hi
    simp [apu_regs.set_raw, hi]

theorem apu_writeb_raw_roundtrip_witness :
    (apu_writeb apu_zero 0xAB 3).r.raw 3 = 0xAB ∧
    (∀ i : Fin NUM_REGS, i ≠ 3 → (apu_writeb apu_zero 0xAB 3).r.raw i = apu_zero.r.raw i) ∧
    (apu_writeb apu_zero 0xAB 3).r.ctrl = apu_zero.r.ctrl ∧
    (apu_writeb apu_zero 0xAB 3).r.stat = apu_zero.r.stat ∧
    (apu_writeb apu_zero 0xAB 3).r.seq = apu_zero.r.seq :=
  apu_writeb_raw_roundtrip apu_zero 0xAB 3 (by decide)

/-- C2: a write of `b` to PULSE1_TIMER_HIGH (resp. PULSE2_TIMER_HIGH) always
sets `env_start` of that channel; it loads the channel's `len_counter` with
entry `b >> 3` of the length table when the channel's enable bit of the
control register is set and leaves `len_counter` alone when it is clear; the
other channel's runtime state is untouched. -/
theorem apu_writeb_timer_high (s : apu) (b : Nat) (hb : b < 256) :
    ((apu_writeb s b 3).pulse1.env_start = true ∧
      (apu_ctrl.pulse1_len_counter_en s.r.ctrl = 1 →
        (apu_writeb s b 3).pulse1.len_counter =
          ([10, 254, 20, 2, 40, 4, 80, 6, 160, 8, 60, 10, 14, 12, 26, 14,
            12, 16, 24, 18, 48, 20, 96, 22, 192, 24, 72, 26, 16, 28, 32, 30] :
              List Nat).getD (b >>> 3) 0) ∧
      (apu_ctrl.pulse1_len_counter_en s.r.ctrl = 0 →
        (apu_writeb s b 3).pulse1.len_counter = s.pulse1.len_counter) ∧
      (apu_writeb s b 3).pulse2 = s.pulse2) ∧
    ((apu_writeb s b 7).pulse2.env_start = true ∧
      (apu_ctrl.pulse2_len_counter_en s.r.ctrl = 1 →
        (apu_writeb s b 7).pulse2.len_counter =
          ([10, 254, 20, 2, 40, 4, 80, 6, 160, 8, 60, 10, 14, 12, 26, 14,
            12, 16, 24, 18, 48, 20, 96, 22, 192, 24, 72, 26, 16, 28, 32, 30] :
              List Nat).getD (b >>> 3) 0) ∧
      (apu_ctrl.pulse2_len_counter_en s.r.ctrl = 0 →
        (apu_writeb s b 7).pulse2.len_counter = s.pulse2.len_counter) ∧
      (apu_writeb s b 7).pulse1 = s.pulse1) := by
  have hid : b % 256 / 8 % 32 = b >>> 3 := by
    rw [Nat.shiftRight_eq_div_pow]
    omega
  rw [apu_writeb_pulse1_timer_high, apu_writeb_pulse2_timer_high]
  simp only [apu_ctrl.pulse1_len_counter_en, apu_ctrl.pulse2_len_counter_en, hid]
  refine ⟨⟨trivial, ?_, ?_, trivial⟩, ⟨trivial, ?_, ?_, trivial⟩⟩
  · intro h
    simp [h, len_counter_table]
  · intro h
    simp [h]
  · intro h
    simp [h, len_counter_table]
  · intro h
    simp [h]

theorem apu_writeb_timer_high_witness :
    ((apu_writeb apu_zero 0x08 3).pulse1.env_start = true ∧
      (apu_ctrl.pulse1_len_counter_en apu_zero.r.ctrl = 1 →
        (apu_writeb apu_zero 0x08 3).pulse1.len_counter =
          ([10, 254, 20, 2, 40, 4, 80, 6, 160, 8, 60, 10, 14, 12, 26, 14,
            12, 16, 24, 18, 48, 20, 96, 22, 192, 24, 72, 26, 16, 28, 32, 30] :
              List Nat).getD (0x08 >>> 3) 0) ∧
      (apu_ctrl.pulse1_len_counter_en apu_zero.r.ctrl = 0 →
        (apu_writeb apu_zero 0x08 3).pulse1.len_counter = apu_zero.pulse1.len_counter) ∧
      (apu_writeb apu_zero 0x08 3).pulse2 = apu_zero.pulse2) ∧
    ((apu_writeb apu_zero 0x08 7).pulse2.env_start = true ∧
      (apu_ctrl.pulse2_len_counter_en apu_zero.r.ctrl = 1 →
        (apu_writeb apu_zero 0x08 7).pulse2.len_counter =
          ([10, 254, 20, 2, 40, 4, 80, 6, 160, 8, 60, 10, 14, 12, 26, 14,
            12, 16, 24, 18, 48, 20, 96, 22, 192, 24, 72, 26, 16, 28, 32, 30] :
              List Nat).getD (0x08 >>> 3) 0) ∧
      (apu_ctrl.pulse2_len_counter_en apu_zero.r.ctrl = 0 →
        (apu_writeb apu_zero 0x08 7).pulse2.len_counter = apu_zero.pulse2.len_counter) ∧
      (apu_writeb apu_zero 0x08 7).pulse1 = apu_zero.pulse1) :=
  apu_writeb_timer_high apu_zero 0x08 (by decide)

theorem ctrl_writeb_eq (s : apu) (b : Nat) :
    ctrl_writeb s b =
      { r := { s.r with ctrl := b % 256 }
        pulse1 :=
          { s.pulse1 with
            len_counter := if b % 256 % 2 = 0 then 0 else s.pulse1.len_counter }
        pulse2 :=
          { s.pulse2 with
            len_counter := if b % 256 / 2 % 2 = 0 then 0 else s.pulse2.len_counter }
        seq_step := s.seq_step
        cycle := s.cycle
        seq_clock_num_remaining_cycles := s.seq_clock_num_remaining_cycles
        irq := s.irq } := by
  by_cases h1 : b % 256 % 2 = 0 <;> by_cases h2 : b % 256 / 2 % 2 = 0 <;>
    simp [ctrl_writeb, h1, h2]

/-- C3: a control write of `b` stores `b` and zeroes the length counter of
each pulse channel whose enable bit (bit 0 for pulse 1, bit 1 for pulse 2) is
clear in `b`; a channel whose bit is set keeps its length counter. -/
theorem ctrl_writeb_len_counter (s : apu) (b : Nat) (hb : b < 256) :
    (ctrl_writeb s b).r.ctrl = b ∧
    (b.testBit 0 = false → (ctrl_writeb s b).pulse1.len_counter = 0) ∧
    (b.testBit 0 = true → (ctrl_writeb s b).pulse1.len_counter = s.pulse1.len_counter) ∧
    (b.testBit 1 = false → (ctrl_writeb s b).pulse2.len_counter = 0) ∧
    (b.testBit 1 = true → (ctrl_writeb s b).pulse2.len_counter = s.pulse2.len_counter) := by
  rw [ctrl_writeb_eq]
  simp only [Nat.testBit_to_div_mod, Nat.mod_eq_of_lt hb]
  refine ⟨trivial, ?_, ?_, ?_, ?_⟩
  · intro h
    have : b % 2 = 0 := by simp at h; omega
    simp [this]
  · intro h
    have : ¬ b % 2 = 0 := by simp at h; omega
    simp [this]
  · intro h
    have : b / 2 % 2 = 0 := by simp at h; omega
    simp [this]
  · intro h
    have : ¬ b / 2 % 2 = 0 := by simp at h; omega
    simp [this]

theorem ctrl_writeb_len_counter_witness :
    (ctrl_writeb (apu_writeb (ctrl_writeb apu_zero 3) 0x08 3) 2).r.ctrl = 2 ∧
    (ctrl_writeb (apu_writeb (ctrl_writeb apu_zero 3) 0x08 3) 2).pulse1.len_counter = 0 :=
  ⟨(ctrl_writeb_len_counter (apu_writeb (ctrl_writeb apu_zero 3) 0x08 3) 2 (by decide)).1,
   (ctrl_writeb_len_counter (apu_writeb (ctrl_writeb apu_zero 3) 0x08 3) 2 (by decide)).2.1
     (by decide)⟩

/-! ## Framing of the timer path -/

@[simp] theorem pulse_update_ch_r (s : apu) (c : Nat) : (pulse_update_ch s c).r = s.r := by
  unfold pulse_update_ch
  simp only []
  split_ifs <;> simp

@[simp] theorem pulse_update_ch_seq_step (s : apu) (c : Nat) :
    (pulse_update_ch s c).seq_step = s.seq_step := by
  unfold pulse_update_ch
  simp only []
  split_ifs <;> simp

@[simp] theorem pulse_update_ch_irq (s : apu) (c : Nat) :
    (pulse_update_ch s c).irq = s.irq := by
  unfold pulse_update_ch
  simp only []
  split_ifs <;> simp

@[simp] theorem pulse_update_r (s : apu) : (pulse_update s).r = s.r := by
  simp [pulse_update]

@[simp] theorem pulse_update_seq_step (s : apu) : (pulse_update s).seq_step = s.seq_step := by
  simp [pulse_update]

@[simp] theorem pulse_update_irq (s : apu) : (pulse_update s).irq = s.irq := by
  simp [pulse_update]

@[simp] theorem apu_tick_r (s : apu) : (apu_tick s).1.r = s.r := by
  unfold apu_tick
  simp only []
  split_ifs <;> simp

@[simp] theorem apu_tick_seq_step (s : apu) : (apu_tick s).1.seq_step = s.seq_step := by
  unfold apu_tick
  simp only []
  split_ifs <;> simp

@[simp] theorem apu_tick_irq (s : apu) : (apu_tick s).1.irq = s.irq := by
  unfold apu_tick
  simp only []
  split_ifs <;> simp

theorem ctrl_writeb_stat (s : apu) (b : Nat) : (ctrl_writeb s b).r.stat = s.r.stat := by
  rw [ctrl_writeb_eq]

theorem seq_writeb_stat (s : apu) (b : Nat) :
    (seq_writeb s b).r.stat =
      if b % 256 / 64 % 2 ≠ 0 then apu_stat.set_frame_interrupt s.r.stat 0 else s.r.stat := by
  unfold seq_writeb
  simp only [seq.int_inhibit]
  split_ifs <;> rfl

/-- Outside a sequencer tick no callback raises the frame-interrupt bit. -/
theorem step_frame_interrupt_zero (s : apu) (o : op) (ho : o ≠ op.sequencer_tick)
    (h : apu_stat.frame_interrupt s.r.stat = 0) :
    apu_stat.frame_interrupt (step s o).r.stat = 0 := by
  cases o with
  | main_write b a =>
    simp only [step, apu_writeb_r]
    exact h
  | ctrl_write b =>
    simp only [step, ctrl_writeb_stat]
    exact h
  | seq_write b =>
    simp only [step, seq_writeb_stat]
    simp only [apu_stat.frame_interrupt, apu_stat.set_frame_interrupt] at h ⊢
    split_ifs <;> omega
  | stat_read =>
    simp only [step, stat_readb, apu_stat.frame_interrupt, apu_stat.set_frame_interrupt] at h ⊢
    omega
  | sample_tick =>
    simp only [step, apu_tick_r]
    exact h
  | sequencer_tick => exact absurd rfl ho

theorem run_frame_interrupt_zero (ops : List op) :
    ∀ s : apu, op.sequencer_tick ∉ ops → apu_stat.frame_interrupt s.r.stat = 0 →
      apu_stat.frame_interrupt (run s ops).r.stat = 0 := by
  induction ops with
  | nil =>
    intro s _ h
    exact h
  | cons o rest ih =>
    intro s hmem h
    have ho : o ≠ op.sequencer_tick := by
      intro e
      exact hmem (by simp [e])
    have hrest : op.sequencer_tick ∉ rest := by
      intro e
      exact hmem (by simp [e])
    exact ih (step s o) hrest (step_frame_interrupt_zero s o ho h)

/-- C4: a status read returns the status byte as it was and leaves it with
bit 6 (frame interrupt) cleared and every other bit as before; a later status
read, whatever callbacks other than a sequencer tick ran in between, returns
a byte whose bit 6 is clear. -/
theorem stat_readb_clears_frame_interrupt (s : apu) :
    (stat_readb s).1 = s.r.stat ∧
    (∀ i : Nat, (stat_readb s).2.r.stat.testBit i = (decide (i ≠ 6) && s.r.stat.testBit i)) ∧
    (∀ ops : List op, op.sequencer_tick ∉ ops →
      (stat_readb (run (stat_readb s).2 ops)).1.testBit 6 = false) := by
  refine ⟨rfl, ?_, ?_⟩
  · intro i
    exact testBit_set_frame_interrupt_zero s.r.stat i
  · intro ops hops
    have h0 : apu_stat.frame_interrupt (stat_readb s).2.r.stat = 0 := by
      simp only [stat_readb, apu_stat.frame_interrupt, apu_stat.set_frame_interrupt]
      omega
    have h1 := run_frame_interrupt_zero ops (stat_readb s).2 hops h0
    simp only [apu_stat.frame_interrupt] at h1
    show (run (stat_readb s).2 ops).r.stat.testBit 6 = false
    rw [Nat.testBit_to_div_mod]
    simp [h1]

theorem stat_readb_clears_frame_interrupt_witness :
    (stat_readb { apu_zero with r := { apu_zero.r with stat := 0x43 } }).1 = 0x43 ∧
    (stat_readb (run (stat_readb { apu_zero with r := { apu_zero.r with stat := 0x43 } }).2
      [op.ctrl_write 1, op.sample_tick, op.sample_tick, op.seq_write 0])).1.testBit 6 = false :=
  ⟨(stat_readb_clears_frame_interrupt
      { apu_zero with r := { apu_zero.r with stat := 0x43 } }).1,
   (stat_readb_clears_frame_interrupt
      { apu_zero with r := { apu_zero.r with stat := 0x43 } }).2.2
      [op.ctrl_write 1, op.sample_tick, op.sample_tick, op.seq_write 0] (by decide)⟩

/-- C5: a sequencer write of `b` stores `b`, resets the frame-sequencer step
(and the sequencer clock divider) to zero, clears bit 6 of the status byte
(and no other bit) when bit 6 of `b` (interrupt inhibit) is set, and leaves
the status byte as it was when that bit is clear. -/
theorem seq_writeb_effects (s : apu) (b : Nat) (hb : b < 256) :
    (seq_writeb s b).r.seq = b ∧
    (seq_writeb s b).seq_step = 0 ∧
    (seq_writeb s b).seq_clock_num_remaining_cycles = 0 ∧
    (b.testBit 6 = true →
      ∀ i : Nat, (seq_writeb s b).r.stat.testBit i = (decide (i ≠ 6) && s.r.stat.testBit i)) ∧
    (b.testBit 6 = false → (seq_writeb s b).r.stat = s.r.stat) := by
  refine ⟨?_, ?_, ?_, ?_, ?_⟩
  · unfold seq_writeb
    simp only []
    split_ifs <;> exact Nat.mod_eq_of_lt hb
  · unfold seq_writeb
    simp only []
    split_ifs <;> rfl
  · unfold seq_writeb
    simp only []
    split_ifs <;> rfl
  · intro h i
    rw [Nat.testBit_to_div_mod] at h
    have h6 : b % 256 / 64 % 2 ≠ 0 := by simp at h; omega
    rw [seq_writeb_stat, if_pos h6]
    exact testBit_set_frame_interrupt_zero s.r.stat i
  · intro h
    rw [Nat.testBit_to_div_mod] at h
    have h6 : ¬ b % 256 / 64 % 2 ≠ 0 := by simp at h; omega
    rw [seq_writeb_stat, if_neg h6]

theorem seq_writeb_effects_witness :
    (seq_writeb { apu_zero with seq_step := 2, r := { apu_zero.r with stat := 0x41 } } 0x40).r.seq
      = 0x40 ∧
    (seq_writeb { apu_zero with seq_step := 2, r := { apu_zero.r with stat := 0x41 } }
      0x40).seq_step = 0 :=
  ⟨(seq_writeb_effects { apu_zero with seq_step := 2, r := { apu_zero.r with stat := 0x41 } }
      0x40 (by decide)).1,
   (seq_writeb_effects { apu_zero with seq_step := 2, r := { apu_zero.r with stat := 0x41 } }
      0x40 (by decide)).2.1⟩

/-! ## Framing of the sequencer path -/

@[simp] theorem set_t_lo_ctrl (s : apu) (c v : Nat) : (set_t_lo s c v).r.ctrl = s.r.ctrl := rfl

@[simp] theorem set_t_lo_stat (s : apu) (c v : Nat) : (set_t_lo s c v).r.stat = s.r.stat := rfl

@[simp] theorem set_t_lo_seq (s : apu) (c v : Nat) : (set_t_lo s c v).r.seq = s.r.seq := rfl

@[simp] theorem set_t_lo_seq_step (s : apu) (c v : Nat) :
    (set_t_lo s c v).seq_step = s.seq_step := rfl

@[simp] theorem set_t_lo_irq (s : apu) (c v : Nat) : (set_t_lo s c v).irq = s.irq := rfl

@[simp] theorem set_t_lo_pulse1 (s : apu) (c v : Nat) : (set_t_lo s c v).pulse1 = s.pulse1 := rfl

@[simp] theorem set_t_lo_pulse2 (s : apu) (c v : Nat) : (set_t_lo s c v).pulse2 = s.pulse2 := rfl

@[simp] theorem set_t_hi_ctrl (s : apu) (c v : Nat) : (set_t_hi s c v).r.ctrl = s.r.ctrl := rfl

@[simp] theorem set_t_hi_stat (s : apu) (c v : Nat) : (set_t_hi s c v).r.stat = s.r.stat := rfl

@[simp] theorem set_t_hi_seq (s : apu) (c v : Nat) : (set_t_hi s c v).r.seq = s.r.seq := rfl

@[simp] theorem set_t_hi_seq_step (s : apu) (c v : Nat) :
    (set_t_hi s c v).seq_step = s.seq_step := rfl

@[simp] theorem set_t_hi_irq (s : apu) (c v : Nat) : (set_t_hi s c v).irq = s.irq := rfl

@[simp] theorem set_t_hi_pulse1 (s : apu) (c v : Nat) : (set_t_hi s c v).pulse1 = s.pulse1 := rfl

@[simp] theorem set_t_hi_pulse2 (s : apu) (c v : Nat) : (set_t_hi s c v).pulse2 = s.pulse2 := rfl

@[simp] theorem length_counter_tick_ch_r (s : apu) (c : Nat) :
    (length_counter_tick_ch s c).r = s.r := by
  simp [length_counter_tick_ch]

@[simp] theorem length_counter_tick_ch_seq_step (s : apu) (c : Nat) :
    (length_counter_tick_ch s c).seq_step = s.seq_step := by
  simp [length_counter_tick_ch]

@[simp] theorem length_counter_tick_ch_irq (s : apu) (c : Nat) :
    (length_counter_tick_ch s c).irq = s.irq := by
  simp [length_counter_tick_ch]

@[simp] theorem length_counter_tick_raw (s : apu) : (length_counter_tick s).r.raw = s.r.raw := by
  simp [length_counter_tick]

@[simp] theorem length_counter_tick_ctrl (s : apu) :
    (length_counter_tick s).r.ctrl = s.r.ctrl := by
  simp [length_counter_tick]

@[simp] theorem length_counter_tick_seq (s : apu) : (length_counter_tick s).r.seq = s.r.seq := by
  simp [length_counter_tick]

@[simp] theorem length_counter_tick_seq_step (s : apu) :
    (length_counter_tick s).seq_step = s.seq_step := by
  simp [length_counter_tick]

@[simp] theorem length_counter_tick_irq (s : apu) : (length_counter_tick s).irq = s.irq := by
  simp [length_counter_tick]

theorem length_counter_tick_stat (s : apu) :
    (length_counter_tick s).r.stat =
      apu_stat.set_pulse2_len_counter_stat
        (apu_stat.set_pulse1_len_counter_stat s.r.stat
          (if (length_counter_tick_ch (length_counter_tick_ch s 1) 2).pulse1.len_counter > 0
            then 1 else 0))
        (if (length_counter_tick_ch (length_counter_tick_ch s 1) 2).pulse2.len_counter > 0
          then 1 else 0) := by
  simp [length_counter_tick]

@[simp] theorem length_counter_tick_frame_interrupt (s : apu) :
    (length_counter_tick s).r.stat / 64 % 2 = s.r.stat / 64 % 2 := by
  rw [length_counter_tick_stat]
  generalize (if (length_counter_tick_ch (length_counter_tick_ch s 1) 2).pulse1.len_counter > 0
    then 1 else 0) = v1
  generalize (if (length_counter_tick_ch (length_counter_tick_ch s 1) 2).pulse2.len_counter > 0
    then 1 else 0) = v2
  simp only [apu_stat.set_pulse1_len_counter_stat, apu_stat.set_pulse2_len_counter_stat]
  omega

@[simp] theorem sweep_tick_ch_ctrl (s : apu) (c : Nat) :
    (sweep_tick_ch s c).r.ctrl = s.r.ctrl := by
  unfold sweep_tick_ch
  simp only []
  split_ifs <;> simp

@[simp] theorem sweep_tick_ch_stat (s : apu) (c : Nat) :
    (sweep_tick_ch s c).r.stat = s.r.stat := by
  unfold sweep_tick_ch
  simp only []
  split_ifs <;> simp

@[simp] theorem sweep_tick_ch_seq (s : apu) (c : Nat) : (sweep_tick_ch s c).r.seq = s.r.seq := by
  unfold sweep_tick_ch
  simp only []
  split_ifs <;> simp

@[simp] theorem sweep_tick_ch_seq_step (s : apu) (c : Nat) :
    (sweep_tick_ch s c).seq_step = s.seq_step := by
  unfold sweep_tick_ch
  simp only []
  split_ifs <;> simp

@[simp] theorem sweep_tick_ch_irq (s : apu) (c : Nat) : (sweep_tick_ch s c).irq = s.irq := by
  unfold sweep_tick_ch
  simp only []
  split_ifs <;> simp

@[simp] theorem sweep_tick_ctrl (s : apu) : (sweep_tick s).r.ctrl = s.r.ctrl := by
  simp [sweep_tick]

@[simp] theorem sweep_tick_stat (s : apu) : (sweep_tick s).r.stat = s.r.stat := by
  simp [sweep_tick]

@[simp] theorem sweep_tick_seq (s : apu) : (sweep_tick s).r.seq = s.r.seq := by
  simp [sweep_tick]

@[simp] theorem sweep_tick_seq_step (s : apu) : (sweep_tick s).seq_step = s.seq_step := by
  simp [sweep_tick]

@[simp] theorem sweep_tick_irq (s : apu) : (sweep_tick s).irq = s.irq := by
  simp [sweep_tick]

@[simp] theorem vol_env_tick_ch_r (s : apu) (c : Nat) : (vol_env_tick_ch s c).r = s.r := by
  simp [vol_env_tick_ch]

@[simp] theorem vol_env_tick_ch_seq_step (s : apu) (c : Nat) :
    (vol_env_tick_ch s c).seq_step = s.seq_step := by
  simp [vol_env_tick_ch]

@[simp] theorem vol_env_tick_ch_irq (s : apu) (c : Nat) :
    (vol_env_tick_ch s c).irq = s.irq := by
  simp [vol_env_tick_ch]

@[simp] theorem vol_env_tick_r (s : apu) : (vol_env_tick s).r = s.r := by
  simp [vol_env_tick]

@[simp] theorem vol_env_tick_seq_step (s : apu) : (vol_env_tick s).seq_step = s.seq_step := by
  simp [vol_env_tick]

@[simp] theorem vol_env_tick_irq (s : apu) : (vol_env_tick s).irq = s.irq := by
  simp [vol_env_tick]

theorem seq_tick_seq (s : apu) : (seq_tick s).1.r.seq = s.r.seq := by
  unfold seq_tick
  simp only []
  split_ifs <;> simp

theorem seq_tick_irq (s : apu) : (seq_tick s).1.irq = s.irq := by
  unfold seq_tick
  simp only []
  split_ifs <;> simp

theorem seq_tick_seq_step (s : apu) :
    (seq_tick s).1.seq_step =
      if s.seq_step + 1 = (if seq.mode s.r.seq = 0 then 4 else 5) then 0
      else s.seq_step + 1 := by
  unfold seq_tick
  simp only []
  split_ifs <;> simp

theorem seq_tick_frame_interrupt (s : apu) :
    apu_stat.frame_interrupt (seq_tick s).1.r.stat =
      if seq.mode s.r.seq = 0 ∧ s.seq_step = 3 ∧ seq.int_inhibit s.r.seq = 0 then 1
      else apu_stat.frame_interrupt s.r.stat := by
  unfold seq_tick
  simp only [apu_stat.frame_interrupt]
  split_ifs <;> simp_all
  all_goals omega

theorem seq_tick_calls (s : apu) :
    (seq_tick s).2 =
      (if apu_stat.frame_interrupt (seq_tick s).1.r.stat ≠ 0
        then [host_call.cpu_interrupt s.irq] else []) ++ [host_call.clock_consume 1] := by
  have key : ∀ (l e : Bool) (y : apu),
      (if e = true then vol_env_tick (if l = true then sweep_tick (length_counter_tick y) else y)
        else (if l = true then sweep_tick (length_counter_tick y) else y)).r.stat / 64 % 2 =
      y.r.stat / 64 % 2 := by
    intro l e y
    cases l <;> cases e <;> simp
  unfold seq_tick
  simp only [apu_stat.frame_interrupt, key]
  split_ifs <;> rfl

@[simp] theorem sample_ticks_r (n : Nat) (s : apu) : (sample_ticks n s).r = s.r := by
  induction n generalizing s with
  | zero => rfl
  | succ n ih =>
    show (sample_ticks n (apu_tick s).1).r = s.r
    rw [ih, apu_tick_r]

@[simp] theorem sample_ticks_seq_step (n : Nat) (s : apu) :
    (sample_ticks n s).seq_step = s.seq_step := by
  induction n generalizing s with
  | zero => rfl
  | succ n ih =>
    show (sample_ticks n (apu_tick s).1).seq_step = s.seq_step
    rw [ih, apu_tick_seq_step]

@[simp] theorem sample_ticks_irq (n : Nat) (s : apu) : (sample_ticks n s).irq = s.irq := by
  induction n generalizing s with
  | zero => rfl
  | succ n ih =>
    show (sample_ticks n (apu_tick s).1).irq = s.irq
    rw [ih, apu_tick_irq]

theorem seq_writeb_seq_step_irq (s : apu) (b : Nat) :
    (seq_writeb s b).r.seq = b % 256 ∧ (seq_writeb s b).seq_step = 0 ∧
    (seq_writeb s b).irq = s.irq := by
  unfold seq_writeb
  simp only []
  split_ifs <;> exact ⟨rfl, rfl, rfl⟩

/-- One sequencer tick in 4-step mode with the inhibit flag clear, preceded by
any number of sample ticks. -/
theorem seq_tick_four_step (s : apu) (n : Nat) (hseq : s.r.seq = 0) :
    (seq_tick (sample_ticks n s)).1.r.seq = 0 ∧
    (seq_tick (sample_ticks n s)).1.irq = s.irq ∧
    (seq_tick (sample_ticks n s)).1.seq_step =
      (if s.seq_step + 1 = 4 then 0 else s.seq_step + 1) ∧
    apu_stat.frame_interrupt (seq_tick (sample_ticks n s)).1.r.stat =
      (if s.seq_step = 3 then 1 else apu_stat.frame_interrupt s.r.stat) ∧
    (seq_tick (sample_ticks n s)).2 =
      (if (if s.seq_step = 3 then 1 else apu_stat.frame_interrupt s.r.stat) ≠ 0
        then [host_call.cpu_interrupt s.irq] else []) ++ [host_call.clock_consume 1] := by
  have h4 : apu_stat.frame_interrupt (seq_tick (sample_ticks n s)).1.r.stat =
      (if s.seq_step = 3 then 1 else apu_stat.frame_interrupt s.r.stat) := by
    rw [seq_tick_frame_interrupt]
    simp [hseq]
  refine ⟨?_, ?_, ?_, h4, ?_⟩
  · rw [seq_tick_seq, sample_ticks_r, hseq]
  · rw [seq_tick_irq, sample_ticks_irq]
  · rw [seq_tick_seq_step]
    simp [hseq]
  · rw [seq_tick_calls, h4, sample_ticks_irq]

/-- The first three ticks of the 4-step sequence leave a clear
frame-interrupt bit clear and make no interrupt call. -/
theorem seq_tick_four_step_early (s : apu) (n : Nat) (k : Int) (hseq : s.r.seq = 0)
    (hk : s.seq_step = k) (hk3 : k = 0 ∨ k = 1 ∨ k = 2)
    (hfi : apu_stat.frame_interrupt s.r.stat = 0) :
    (seq_tick (sample_ticks n s)).1.r.seq = 0 ∧
    (seq_tick (sample_ticks n s)).1.irq = s.irq ∧
    (seq_tick (sample_ticks n s)).1.seq_step = k + 1 ∧
    apu_stat.frame_interrupt (seq_tick (sample_ticks n s)).1.r.stat = 0 ∧
    (seq_tick (sample_ticks n s)).2 = [host_call.clock_consume 1] := by
  obtain ⟨a1, a2, a3, a4, a5⟩ := seq_tick_four_step s n hseq
  have e1 : ¬ s.seq_step + 1 = 4 := by omega
  have e2 : ¬ s.seq_step = 3 := by omega
  rw [if_neg e1, hk] at a3
  rw [if_neg e2, hfi] at a4
  rw [if_neg e2, hfi] at a5
  exact ⟨a1, a2, a3, a4, a5⟩

/-- The fourth tick of the 4-step sequence sets the frame-interrupt bit and
calls the CPU interrupt. -/
theorem seq_tick_four_step_last (s : apu) (n : Nat) (hseq : s.r.seq = 0)
    (hk : s.seq_step = 3) :
    apu_stat.frame_interrupt (seq_tick (sample_ticks n s)).1.r.stat = 1 ∧
    (seq_tick (sample_ticks n s)).2 =
      [host_call.cpu_interrupt s.irq, host_call.clock_consume 1] := by
  obtain ⟨_, _, _, a4, a5⟩ := seq_tick_four_step s n hseq
  rw [if_pos hk] at a4 a5
  exact ⟨a4, a5⟩

/-- C6: after a sequencer write of 0x00 that leaves the frame-interrupt bit
clear, and with only sample ticks (any number of them) between sequencer
ticks: the first three sequencer ticks leave the bit clear and make no
`cpu_interrupt` call, the fourth sets the bit and calls `cpu_interrupt` with
the controller's IRQ number, and a status read made then returns a byte with
bit 6 set and leaves the bit clear. -/
theorem seq_tick_frame_interrupt_after_four (s : apu) (n0 n1 n2 n3 n4 : Nat)
    (h : apu_stat.frame_interrupt (seq_writeb s 0x00).r.stat = 0) :
    let t1 := seq_tick (sample_ticks n0 (seq_writeb s 0x00))
    let t2 := seq_tick (sample_ticks n1 t1.1)
    let t3 := seq_tick (sample_ticks n2 t2.1)
    let t4 := seq_tick (sample_ticks n3 t3.1)
    let rd := stat_readb (sample_ticks n4 t4.1)
    (apu_stat.frame_interrupt t1.1.r.stat = 0 ∧ t1.2 = [host_call.clock_consume 1]) ∧
    (apu_stat.frame_interrupt t2.1.r.stat = 0 ∧ t2.2 = [host_call.clock_consume 1]) ∧
    (apu_stat.frame_interrupt t3.1.r.stat = 0 ∧ t3.2 = [host_call.clock_consume 1]) ∧
    (apu_stat.frame_interrupt t4.1.r.stat = 1 ∧
      t4.2 = [host_call.cpu_interrupt s.irq, host_call.clock_consume 1]) ∧
    rd.1.testBit 6 = true ∧ rd.2.r.stat.testBit 6 = false := by
  intro t1 t2 t3 t4 rd
  obtain ⟨wseq, wstep, wirq⟩ := seq_writeb_seq_step_irq s 0x00
  obtain ⟨a1, a2, a3, a4, a5⟩ :=
    seq_tick_four_step_early (seq_writeb s 0x00) n0 0 wseq wstep (Or.inl rfl) h
  obtain ⟨b1, b2, b3, b4, b5⟩ :=
    seq_tick_four_step_early t1.1 n1 1 a1 a3 (Or.inr (Or.inl rfl)) a4
  obtain ⟨c1, c2, c3, c4, c5⟩ :=
    seq_tick_four_step_early t2.1 n2 2 b1 b3 (Or.inr (Or.inr rfl)) b4
  obtain ⟨d4, d5⟩ := seq_tick_four_step_last t3.1 n3 c1 c3
  have e4 : apu_stat.frame_interrupt t4.1.r.stat = 1 := d4
  have eirq : t3.1.irq = s.irq := by rw [c2, b2, a2, wirq]
  rw [eirq] at d5
  refine ⟨⟨a4, a5⟩, ⟨b4, b5⟩, ⟨c4, c5⟩, ⟨e4, d5⟩, ?_, ?_⟩
  · show (sample_ticks n4 t4.1).r.stat.testBit 6 = true
    rw [sample_ticks_r, Nat.testBit_to_div_mod]
    simp only [apu_stat.frame_interrupt] at e4
    simp [e4]
  · rw [stat_readb_testBit]
    simp

theorem seq_tick_frame_interrupt_after_four_witness :
    let t1 := seq_tick (sample_ticks 2 (seq_writeb apu_zero 0x00))
    let t2 := seq_tick (sample_ticks 0 t1.1)
    let t3 := seq_tick (sample_ticks 1 t2.1)
    let t4 := seq_tick (sample_ticks 3 t3.1)
    let rd := stat_readb (sample_ticks 0 t4.1)
    (apu_stat.frame_interrupt t1.1.r.stat = 0 ∧ t1.2 = [host_call.clock_consume 1]) ∧
    (apu_stat.frame_interrupt t2.1.r.stat = 0 ∧ t2.2 = [host_call.clock_consume 1]) ∧
    (apu_stat.frame_interrupt t3.1.r.stat = 0 ∧ t3.2 = [host_call.clock_consume 1]) ∧
    (apu_stat.frame_interrupt t4.1.r.stat = 1 ∧
      t4.2 = [host_call.cpu_interrupt apu_zero.irq, host_call.clock_consume 1]) ∧
    rd.1.testBit 6 = true ∧ rd.2.r.stat.testBit 6 = false :=
  seq_tick_frame_interrupt_after_four apu_zero 2 0 1 3 0 (by decide)

/-! ## Length counter and silencing -/

theorem length_counter_tick_ch_two_pulse1 (s : apu) :
    (length_counter_tick_ch s 2).pulse1 = s.pulse1 := by
  simp [length_counter_tick_ch]

theorem length_counter_tick_ch_one_pulse2 (s : apu) :
    (length_counter_tick_ch s 1).pulse2 = s.pulse2 := by
  simp [length_counter_tick_ch]

theorem length_counter_tick_ch_one_pulse1 (s : apu) :
    (length_counter_tick_ch s 1).pulse1 =
      { s.pulse1 with
        len_counter_silenced := decide (s.pulse1.len_counter = 0 ∧ s.r.raw 0 / 32 % 2 = 0)
        len_counter :=
          if s.r.raw 0 / 32 % 2 = 0 ∧ s.pulse1.len_counter ≠ 0 then (s.pulse1.len_counter + 255) % 256
          else s.pulse1.len_counter } := by
  simp only [length_counter_tick_ch, get_pulse_one, get_p_main,
    apu_regs.pulse1_main, set_pulse_pulse1_one, pulse_main.env_loop_len_counter_halt]
  split_ifs <;> simp_all

theorem length_counter_tick_ch_two_pulse2 (s : apu) :
    (length_counter_tick_ch s 2).pulse2 =
      { s.pulse2 with
        len_counter_silenced := decide (s.pulse2.len_counter = 0 ∧ s.r.raw 4 / 32 % 2 = 0)
        len_counter :=
          if s.r.raw 4 / 32 % 2 = 0 ∧ s.pulse2.len_counter ≠ 0 then (s.pulse2.len_counter + 255) % 256
          else s.pulse2.len_counter } := by
  simp only [length_counter_tick_ch, get_pulse_two, get_p_main,
    apu_regs.pulse2_main, set_pulse_pulse2_two, pulse_main.env_loop_len_counter_halt]
  split_ifs <;> simp_all

theorem length_counter_tick_pulse1 (s : apu) :
    (length_counter_tick s).pulse1 =
      { s.pulse1 with
        len_counter_silenced := decide (s.pulse1.len_counter = 0 ∧ s.r.raw 0 / 32 % 2 = 0)
        len_counter :=
          if s.r.raw 0 / 32 % 2 = 0 ∧ s.pulse1.len_counter ≠ 0 then (s.pulse1.len_counter + 255) % 256
          else s.pulse1.len_counter } := by
  simp [length_counter_tick, length_counter_tick_ch_two_pulse1,
    length_counter_tick_ch_one_pulse1]

theorem length_counter_tick_pulse2 (s : apu) :
    (length_counter_tick s).pulse2 =
      { s.pulse2 with
        len_counter_silenced := decide (s.pulse2.len_counter = 0 ∧ s.r.raw 4 / 32 % 2 = 0)
        len_counter :=
          if s.r.raw 4 / 32 % 2 = 0 ∧ s.pulse2.len_counter ≠ 0 then (s.pulse2.len_counter + 255) % 256
          else s.pulse2.len_counter } := by
  simp [length_counter_tick, length_counter_tick_ch_two_pulse2,
    length_counter_tick_ch_one_pulse2]

/-- C7, as stated, fails: after enabling pulse 1, loading its length counter,
clocking the length unit once and then clearing the enable bit, the length
counter is 0 while the channel is neither length-silenced nor halted. -/
theorem length_counter_zero_unsilenced_reachable :
    reachable (run (apu_reset apu_zero)
      [op.ctrl_write 0x01, op.main_write 0x08 3, op.sequencer_tick, op.sequencer_tick,
        op.ctrl_write 0x00]) ∧
    (run (apu_reset apu_zero)
      [op.ctrl_write 0x01, op.main_write 0x08 3, op.sequencer_tick, op.sequencer_tick,
        op.ctrl_write 0x00]).pulse1.len_counter = 0 ∧
    (run (apu_reset apu_zero)
      [op.ctrl_write 0x01, op.main_write 0x08 3, op.sequencer_tick, op.sequencer_tick,
        op.ctrl_write 0x00]).pulse1.len_counter_silenced = false ∧
    pulse_main.env_loop_len_counter_halt (run (apu_reset apu_zero)
      [op.ctrl_write 0x01, op.main_write 0x08 3, op.sequencer_tick, op.sequencer_tick,
        op.ctrl_write 0x00]).r.pulse1_main = 0 :=
  ⟨⟨apu_zero, _, rfl⟩, by decide, by decide, by decide⟩

/-- C7, amended: whenever the length unit is clocked in a state (reachable or
not) where a pulse channel's length counter is 0, then right after that clock
the counter is still 0 and the channel is length-silenced or its halt bit is
set. -/
theorem length_counter_tick_zero_silences (s : apu) (c : Nat) (hc : c = 1 ∨ c = 2)
    (h0 : (get_pulse s c).len_counter = 0) :
    (get_pulse (length_counter_tick s) c).len_counter = 0 ∧
    ((get_pulse (length_counter_tick s) c).len_counter_silenced = true ∨
      pulse_main.env_loop_len_counter_halt (get_p_main (length_counter_tick s) c) ≠ 0) := by
  rcases hc with rfl | rfl
  · simp only [get_pulse_one] at h0
    simp only [get_pulse_one, length_counter_tick_pulse1, get_p_main, apu_regs.pulse1_main,
      length_counter_tick_raw, pulse_main.env_loop_len_counter_halt, h0]
    simp
    omega
  · simp only [get_pulse_two] at h0
    simp only [get_pulse_two, length_counter_tick_pulse2, get_p_main, apu_regs.pulse2_main,
      length_counter_tick_raw, pulse_main.env_loop_len_counter_halt, h0]
    simp
    omega

theorem length_counter_tick_zero_silences_witness :
    (get_pulse (length_counter_tick (apu_reset apu_zero)) 1).len_counter = 0 ∧
    ((get_pulse (length_counter_tick (apu_reset apu_zero)) 1).len_counter_silenced = true ∨
      pulse_main.env_loop_len_counter_halt
        (get_p_main (length_counter_tick (apu_reset apu_zero)) 1) ≠ 0) :=
  length_counter_tick_zero_silences (apu_reset apu_zero) 1 (Or.inl rfl) (by decide)

/-! ## Sweep unit -/

theorem shiftRight_le_self (n k : Nat) : n >>> k ≤ n := by
  rw [Nat.shiftRight_eq_div_pow]
  exact Nat.div_le_self n (2 ^ k)

/-- With a byte in the timer-low register the current period is the 11-bit
number `timer_high * 256 + timer_low`. -/
theorem sweep_current_period_eq (t_lo t_hi : Nat) (h : t_lo < 256) :
    sweep_current_period t_lo t_hi = t_hi % 8 * 256 + t_lo := by
  unfold sweep_current_period
  simp only [pulse_timer_high.timer_high]
  have e : t_lo ||| (t_hi % 8) <<< 8 = 2 ^ 8 * (t_hi % 8) + t_lo := by
    rw [Nat.or_comm, Nat.shiftLeft_eq, Nat.mul_comm]
    exact (Nat.mul_add_lt_is_or (by omega : t_lo < 2 ^ 8) (t_hi % 8)).symm
  rw [e]
  omega

theorem sweep_current_period_lt (t_lo t_hi : Nat) (h : t_lo < 256) :
    sweep_current_period t_lo t_hi < 2048 := by
  rw [sweep_current_period_eq t_lo t_hi h]
  omega

/-- C8: on pulse channel 2 with the negate flag set, the target period that
`sweep_tick` computes from an 11-bit current period is exactly
`current - (current >> shift)`: the 16-bit store does not wrap. -/
theorem sweep_target_period_channel2_negate (sweep current_period : Nat)
    (hcur : current_period < 2048) (hneg : pulse_sweep.negate sweep = 1) :
    (sweep_target_period 2 sweep current_period : Int) =
      (current_period : Int) - ((current_period >>> pulse_sweep.shift sweep : Nat) : Int) := by
  have hle := shiftRight_le_self current_period (pulse_sweep.shift sweep)
  have hmod : (current_period >>> pulse_sweep.shift sweep) % 65536 =
      current_period >>> pulse_sweep.shift sweep := Nat.mod_eq_of_lt (by omega)
  have h2 : ¬ ((2 : Nat) = 1 ∧ pulse_sweep.negate sweep ≠ 0) := by omega
  have hn : pulse_sweep.negate sweep ≠ 0 := by omega
  simp only [sweep_target_period]
  rw [if_neg h2, if_pos hn, hmod]
  generalize current_period >>> pulse_sweep.shift sweep = res at hle
  omega

theorem sweep_target_period_channel2_negate_witness :
    (sweep_target_period 2 0x09 0x100 : Int) =
      ((0x100 : Nat) : Int) - ((0x100 >>> pulse_sweep.shift 0x09 : Nat) : Int) :=
  sweep_target_period_channel2_negate 0x09 0x100 (by decide) (by decide)

/-- C9 fails on the code: for pulse channel 1 with negate set, shift 1 and
current period 0x100 the code's target is 0x81, one more than channel 2's
0x80, where the claim gives 0x100 - 0x80 - 1 = 0x7F; run from reset, the
period written back by the first length/sweep clock is 0x081. -/
theorem sweep_target_period_channel1_negate_value :
    sweep_target_period 1 0x09 0x100 = 0x81 ∧
    sweep_target_period 2 0x09 0x100 = 0x80 ∧
    (run (apu_reset apu_zero)
      [op.main_write 0x89 1, op.main_write 0x00 2, op.main_write 0x01 3,
        op.sequencer_tick, op.sequencer_tick]).r.pulse1_t_lo = 0x81 ∧
    (run (apu_reset apu_zero)
      [op.main_write 0x89 1, op.main_write 0x00 2, op.main_write 0x01 3,
        op.sequencer_tick, op.sequencer_tick]).r.pulse1_t_hi = 0x00 := by
  decide

theorem sweep_tick_ch_two_pulse1 (s : apu) : (sweep_tick_ch s 2).pulse1 = s.pulse1 := by
  unfold sweep_tick_ch
  simp only []
  split_ifs <;> simp

theorem sweep_tick_ch_raw_other (s : apu) (c : Nat) (i : Fin NUM_REGS)
    (hlo : i ≠ (if c = 1 then 2 else 6)) (hhi : i ≠ (if c = 1 then 3 else 7)) :
    (sweep_tick_ch s c).r.raw i = s.r.raw i := by
  unfold sweep_tick_ch
  simp only []
  split_ifs <;> simp_all [set_t_lo, set_t_hi, apu_regs.set_raw]

theorem sweep_tick_ch_sweep_silenced (s : apu) (c : Nat) (hc : c = 1 ∨ c = 2) :
    (get_pulse (sweep_tick_ch s c) c).sweep_silenced =
      (decide (pulse_sweep.enabled (get_sweep s c) ≠ 0) &&
        decide (sweep_current_period (get_t_lo s c) (get_t_hi s c) < 8 ∨
          sweep_target_period c (get_sweep s c)
            (sweep_current_period (get_t_lo s c) (get_t_hi s c)) > 0x7FF)) := by
  rcases hc with rfl | rfl
  · unfold sweep_tick_ch
    simp only []
    split_ifs <;> simp
  · unfold sweep_tick_ch
    simp only []
    split_ifs <;> simp

theorem sweep_tick_sweep_silenced_eq (s : apu) (c : Nat) (hc : c = 1 ∨ c = 2) :
    (get_pulse (sweep_tick s) c).sweep_silenced =
      (decide (pulse_sweep.enabled (get_sweep s c) ≠ 0) &&
        decide (sweep_current_period (get_t_lo s c) (get_t_hi s c) < 8 ∨
          sweep_target_period c (get_sweep s c)
            (sweep_current_period (get_t_lo s c) (get_t_hi s c)) > 0x7FF)) := by
  rcases hc with rfl | rfl
  · rw [← sweep_tick_ch_sweep_silenced s 1 (Or.inl rfl)]
    simp only [sweep_tick, get_pulse_one, sweep_tick_ch_two_pulse1]
  · have h5 : (sweep_tick_ch s 1).r.raw 5 = s.r.raw 5 :=
      sweep_tick_ch_raw_other s 1 5 (by decide) (by decide)
    have h6 : (sweep_tick_ch s 1).r.raw 6 = s.r.raw 6 :=
      sweep_tick_ch_raw_other s 1 6 (by decide) (by decide)
    have h7 : (sweep_tick_ch s 1).r.raw 7 = s.r.raw 7 :=
      sweep_tick_ch_raw_other s 1 7 (by decide) (by decide)
    have e := sweep_tick_ch_sweep_silenced (sweep_tick_ch s 1) 2 (Or.inr rfl)
    simp only [get_sweep, get_t_lo, get_t_hi, apu_regs.pulse2_sweep, apu_regs.pulse2_t_lo,
      apu_regs.pulse2_t_hi, h5, h6, h7] at e
    simp only [sweep_tick, get_sweep, get_t_lo, get_t_hi, apu_regs.pulse2_sweep,
      apu_regs.pulse2_t_lo, apu_regs.pulse2_t_hi]
    exact e

/-- C10: after `sweep_tick`, each channel's `sweep_silenced` flag equals
`sweep.enabled && (current_period < 8 || target > 0x7FF)`, with the current
period taken from the timer registers before the tick and the target as
computed by the tick.  Hence, with sweep enabled, a current period below 8
silences the channel whatever the shift, negate flag and divider state, and
so does current period 0x400 with shift 0 and negate clear. -/
theorem sweep_tick_sweep_silenced (s : apu) (c : Nat) (hc : c = 1 ∨ c = 2) :
    ((get_pulse (sweep_tick s) c).sweep_silenced =
      (decide (pulse_sweep.enabled (get_sweep s c) = 1) &&
        (decide (sweep_current_period (get_t_lo s c) (get_t_hi s c) < 8) ||
          decide (sweep_target_period c (get_sweep s c)
            (sweep_current_period (get_t_lo s c) (get_t_hi s c)) > 0x7FF)))) ∧
    (pulse_sweep.enabled (get_sweep s c) = 1 →
      sweep_current_period (get_t_lo s c) (get_t_hi s c) < 8 →
      (get_pulse (sweep_tick s) c).sweep_silenced = true) ∧
    (pulse_sweep.enabled (get_sweep s c) = 1 →
      sweep_current_period (get_t_lo s c) (get_t_hi s c) = 0x400 →
      pulse_sweep.shift (get_sweep s c) = 0 →
      pulse_sweep.negate (get_sweep s c) = 0 →
      (get_pulse (sweep_tick s) c).sweep_silenced = true) := by
  have hen : (pulse_sweep.enabled (get_sweep s c) ≠ 0) ↔
      pulse_sweep.enabled (get_sweep s c) = 1 := by
    simp only [pulse_sweep.enabled]
    omega
  have key := sweep_tick_sweep_silenced_eq s c hc
  refine ⟨?_, ?_, ?_⟩
  · rw [key]
    simp only [hen, Bool.decide_or]
  · intro h1 h2
    rw [key, decide_eq_true (hen.mpr h1), decide_eq_true (Or.inl h2)]
    rfl
  · intro h1 h2 h3 h4
    have ht : sweep_target_period c (get_sweep s c) 0x400 = 0x800 := by
      unfold sweep_target_period
      simp only [h3, h4]
      rcases hc with rfl | rfl <;> decide
    rw [key, h2, ht, decide_eq_true (hen.mpr h1)]
    decide

theorem sweep_tick_sweep_silenced_witness :
    (get_pulse (sweep_tick (run (apu_reset apu_zero)
      [op.main_write 0x05 2, op.main_write 0x00 3, op.main_write 0x81 1])) 1).sweep_silenced
      = true :=
  (sweep_tick_sweep_silenced (run (apu_reset apu_zero)
    [op.main_write 0x05 2, op.main_write 0x00 3, op.main_write 0x81 1]) 1 (Or.inl rfl)).2.1
    (by decide) (by decide)

/-! ## Sprite DMA -/

theorem nes_sprite_transfer_length {σ : Type} (M : memory_bus σ) (n : Nat) :
    ∀ (src : Nat) (st : σ), (nes_sprite_transfer M n src st).2.length = 2 * n := by
  induction n with
  | zero =>
    intro src st
    rfl
  | succ n ih =>
    intro src st
    simp only [nes_sprite_transfer, List.length_cons, ih]
    omega

theorem nes_sprite_transfer_calls {σ : Type} (M : memory_bus σ) (n : Nat) :
    ∀ (src : Nat) (st : σ) (i : Nat), src < 65536 → i < n →
      ∃ v, (nes_sprite_transfer M n src st).2[2 * i]? =
            some (bus_call.memory_readb ((src + i) % 65536) v) ∧
          (nes_sprite_transfer M n src st).2[2 * i + 1]? =
            some (bus_call.memory_writeb v DEST_ADDRESS) := by
  induction n with
  | zero =>
    intro src st i _ hi
    omega
  | succ n ih =>
    intro src st i hsrc hi
    cases i with
    | zero =>
      refine ⟨(M.memory_readb st src).1 % 256, ?_, ?_⟩
      · simp [nes_sprite_transfer, Nat.mod_eq_of_lt hsrc]
      · simp [nes_sprite_transfer]
    | succ j =>
      obtain ⟨v, h1, h2⟩ := ih ((src + 1) % 65536)
        (M.memory_writeb (M.memory_readb st src).2 ((M.memory_readb st src).1 % 256)
          DEST_ADDRESS) j (Nat.mod_lt _ (by decide)) (by omega)
      have e : ((src + 1) % 65536 + j) % 65536 = (src + (j + 1)) % 65536 := by omega
      rw [e] at h1
      refine ⟨v, ?_, ?_⟩
      · have e2 : 2 * (j + 1) = 2 * j + 1 + 1 := by omega
        rw [e2]
        simp only [nes_sprite_transfer, List.getElem?_cons_succ]
        exact h1
      · have e2 : 2 * (j + 1) + 1 = 2 * j + 1 + 1 + 1 := by omega
        rw [e2]
        simp only [nes_sprite_transfer, List.getElem?_cons_succ]
        exact h2

theorem nes_sprite_transfer_plain (n : Nat) :
    ∀ (src : Nat) (mem : Nat → Nat) (i : Nat), src < 65536 →
      (∀ j, j < n → (src + j) % 65536 ≠ DEST_ADDRESS) → i < n →
      (nes_sprite_transfer plain_memory n src mem).2[2 * i + 1]? =
        some (bus_call.memory_writeb (mem ((src + i) % 65536) % 256) DEST_ADDRESS) := by
  induction n with
  | zero =>
    intro src mem i _ _ hi
    omega
  | succ n ih =>
    intro src mem i hsrc hne hi
    cases i with
    | zero =>
      simp [nes_sprite_transfer, plain_memory, Nat.mod_eq_of_lt hsrc]
    | succ j =>
      have hne2 : ∀ k, k < n → ((src + 1) % 65536 + k) % 65536 ≠ DEST_ADDRESS := by
        intro k hk
        have := hne (k + 1) (by omega)
        have e : ((src + 1) % 65536 + k) % 65536 = (src + (k + 1)) % 65536 := by omega
        rw [e]
        exact this
      have h := ih ((src + 1) % 65536)
        (plain_memory.memory_writeb (plain_memory.memory_readb mem src).2
          ((plain_memory.memory_readb mem src).1 % 256) DEST_ADDRESS) j
        (Nat.mod_lt _ (by decide)) hne2 (by omega)
      have e : ((src + 1) % 65536 + j) % 65536 = (src + (j + 1)) % 65536 := by omega
      rw [e] at h
      have hd : ¬ (src + (j + 1)) % 65536 = DEST_ADDRESS := hne (j + 1) hi
      have hv : plain_memory.memory_writeb (plain_memory.memory_readb mem src).2
          ((plain_memory.memory_readb mem src).1 % 256) DEST_ADDRESS
          ((src + (j + 1)) % 65536) = mem ((src + (j + 1)) % 65536) := by
        simp only [plain_memory, if_neg hd]
      rw [hv] at h
      have e2 : 2 * (j + 1) + 1 = 2 * j + 1 + 1 + 1 := by omega
      rw [e2]
      simp only [nes_sprite_transfer, List.getElem?_cons_succ]
      exact h

/-- C11: a write of page byte `B` to the DMA register makes exactly 513 calls:
for `i = 0 .. 255` in ascending order a bus read at `(B << 8) + i` directly
followed by a bus write of the byte just read to 0x2004, and then one
`clock_consume(512)`.  On a plain memory bus, when the page does not contain
0x2004 (`B ≠ 0x20`), the byte written at step `i` is the byte the page held at
offset `i` before the transfer. -/
theorem nes_sprite_writeb_transfer {σ : Type} (M : memory_bus σ) (st : σ) (B : Nat)
    (hB : B < 256) :
    (nes_sprite_writeb M st B).2.length = 513 ∧
    (∀ i, i < 256 → ∃ v,
      (nes_sprite_writeb M st B).2[2 * i]? = some (bus_call.memory_readb ((B <<< 8) + i) v) ∧
      (nes_sprite_writeb M st B).2[2 * i + 1]? = some (bus_call.memory_writeb v 0x2004)) ∧
    (nes_sprite_writeb M st B).2[512]? = some (bus_call.clock_consume 512) ∧
    (∀ (mem : Nat → Nat) (i : Nat), B ≠ 0x20 → i < 256 →
      (nes_sprite_writeb plain_memory mem B).2[2 * i + 1]? =
        some (bus_call.memory_writeb (mem ((B <<< 8) + i) % 256) 0x2004)) := by
  have hsrc : ((B % 256) <<< 8) % 65536 = B <<< 8 := by
    rw [Nat.shiftLeft_eq, Nat.shiftLeft_eq]
    omega
  have hlt : B <<< 8 < 65536 := by
    rw [Nat.shiftLeft_eq]
    omega
  have hlen : ∀ {τ : Type} (N : memory_bus τ) (t : τ),
      (nes_sprite_transfer N 256 (B <<< 8) t).2.length = 512 := by
    intro τ N t
    rw [nes_sprite_transfer_length]
  have haddr : ∀ i, i < 256 → (B <<< 8 + i) % 65536 = B <<< 8 + i := by
    intro i hi
    rw [Nat.shiftLeft_eq]
    omega
  refine ⟨?_, ?_, ?_, ?_⟩
  · simp only [nes_sprite_writeb, hsrc, List.length_append, hlen, List.length_singleton]
  · intro i hi
    obtain ⟨v, h1, h2⟩ := nes_sprite_transfer_calls M 256 (B <<< 8) st i hlt hi
    rw [haddr i hi] at h1
    refine ⟨v, ?_, ?_⟩
    · simp only [nes_sprite_writeb, hsrc]
      rw [List.getElem?_append_left (by rw [hlen]; omega)]
      exact h1
    · simp only [nes_sprite_writeb, hsrc]
      rw [List.getElem?_append_left (by rw [hlen]; omega)]
      exact h2
  · simp only [nes_sprite_writeb, hsrc]
    rw [List.getElem?_append_right (by rw [hlen]), hlen]
    rfl
  · intro mem i hB20 hi
    have hne : ∀ j, j < 256 → (B <<< 8 + j) % 65536 ≠ DEST_ADDRESS := by
      intro j hj
      rw [haddr j hj, Nat.shiftLeft_eq]
      simp only [DEST_ADDRESS]
      omega
    have h := nes_sprite_transfer_plain 256 (B <<< 8) mem i hlt hne hi
    rw [haddr i hi] at h
    simp only [nes_sprite_writeb, hsrc]
    rw [List.getElem?_append_left (by rw [hlen]; omega)]
    exact h

theorem nes_sprite_writeb_transfer_witness :
    (nes_sprite_writeb plain_memory (fun a => a % 7) 0x03).2.length = 513 ∧
    (nes_sprite_writeb plain_memory (fun a => a % 7) 0x03).2[2 * 5 + 1]? =
      some (bus_call.memory_writeb ((fun a => a % 7) ((0x03 <<< 8) + 5) % 256) 0x2004) :=
  ⟨(nes_sprite_writeb_transfer plain_memory (fun a => a % 7) 0x03 (by decide)).1,
   (nes_sprite_writeb_transfer plain_memory (fun a => a % 7) 0x03 (by decide)).2.2.2
     (fun a => a % 7) 5 (by decide) (by decide)⟩

/-! ## Channel-level view of the timer and envelope loops -/

theorem pulse_update_ch_eq (s : apu) (c : Nat) :
    pulse_update_ch s c =
      set_pulse s c
        (pulse_update_body (get_p_main s c) (get_t_lo s c) (get_t_hi s c) (get_pulse s c)) := by
  unfold pulse_update_ch pulse_update_body
  simp only []
  split_ifs <;> rfl

theorem vol_env_tick_ch_eq (s : apu) (c : Nat) :
    vol_env_tick_ch s c = set_pulse s c (vol_env_tick_body (get_p_main s c) (get_pulse s c)) := by
  unfold vol_env_tick_ch vol_env_tick_body
  rfl

theorem pulse_update_pulse1 (s : apu) :
    (pulse_update s).pulse1 =
      pulse_update_body s.r.pulse1_main s.r.pulse1_t_lo s.r.pulse1_t_hi s.pulse1 := by
  simp only [pulse_update, pulse_update_ch_eq, set_pulse_pulse1_two, set_pulse_pulse1_one,
    get_pulse_one]
  rfl

theorem pulse_update_pulse2 (s : apu) :
    (pulse_update s).pulse2 =
      pulse_update_body s.r.pulse2_main s.r.pulse2_t_lo s.r.pulse2_t_hi s.pulse2 := by
  simp only [pulse_update, pulse_update_ch_eq, set_pulse_pulse2_two, get_pulse_two,
    set_pulse_pulse2_one, get_p_main, get_t_lo, get_t_hi, set_pulse_r]
  rfl

theorem get_pulse_pulse_update (s : apu) (c : Nat) (hc : c = 1 ∨ c = 2) :
    get_pulse (pulse_update s) c =
      pulse_update_body (get_p_main s c) (get_t_lo s c) (get_t_hi s c) (get_pulse s c) := by
  rcases hc with rfl | rfl
  · exact pulse_update_pulse1 s
  · exact pulse_update_pulse2 s

theorem vol_env_tick_pulse1 (s : apu) :
    (vol_env_tick s).pulse1 = vol_env_tick_body s.r.pulse1_main s.pulse1 := by
  simp only [vol_env_tick, vol_env_tick_ch_eq, set_pulse_pulse1_two, set_pulse_pulse1_one,
    get_pulse_one]
  rfl

theorem vol_env_tick_pulse2 (s : apu) :
    (vol_env_tick s).pulse2 = vol_env_tick_body s.r.pulse2_main s.pulse2 := by
  simp only [vol_env_tick, vol_env_tick_ch_eq, set_pulse_pulse2_two, get_pulse_two,
    set_pulse_pulse2_one, get_p_main, set_pulse_r]
  rfl

theorem get_pulse_vol_env_tick (s : apu) (c : Nat) (hc : c = 1 ∨ c = 2) :
    get_pulse (vol_env_tick s) c = vol_env_tick_body (get_p_main s c) (get_pulse s c) := by
  rcases hc with rfl | rfl
  · exact vol_env_tick_pulse1 s
  · exact vol_env_tick_pulse2 s

theorem iterate_pulse_update_r (n : Nat) (s : apu) : (pulse_update^[n] s).r = s.r := by
  induction n generalizing s with
  | zero => rfl
  | succ n ih => rw [Function.iterate_succ_apply, ih, pulse_update_r]

theorem iterate_vol_env_tick_r (n : Nat) (s : apu) : (vol_env_tick^[n] s).r = s.r := by
  induction n generalizing s with
  | zero => rfl
  | succ n ih => rw [Function.iterate_succ_apply, ih, vol_env_tick_r]

theorem get_pulse_iterate_pulse_update (n : Nat) (c : Nat) (hc : c = 1 ∨ c = 2) :
    ∀ s : apu, get_pulse (pulse_update^[n] s) c =
      (pulse_update_body (get_p_main s c) (get_t_lo s c) (get_t_hi s c))^[n] (get_pulse s c) := by
  induction n with
  | zero =>
    intro s
    rfl
  | succ n ih =>
    intro s
    rw [Function.iterate_succ_apply, Function.iterate_succ_apply, ih (pulse_update s),
      get_pulse_pulse_update s c hc]
    simp only [get_p_main, get_t_lo, get_t_hi, pulse_update_r]

theorem get_pulse_iterate_vol_env_tick (n : Nat) (c : Nat) (hc : c = 1 ∨ c = 2) :
    ∀ s : apu, get_pulse (vol_env_tick^[n] s) c =
      (vol_env_tick_body (get_p_main s c))^[n] (get_pulse s c) := by
  induction n with
  | zero =>
    intro s
    rfl
  | succ n ih =>
    intro s
    rw [Function.iterate_succ_apply, Function.iterate_succ_apply, ih (vol_env_tick s),
      get_pulse_vol_env_tick s c hc]
    simp only [get_p_main, vol_env_tick_r]


/-! ## Timer and duty sequencer -/

theorem duty_value_table (d st : Nat) (hd : d < 4) (hst : st < 8) :
    duty_value d st =
      (([[0, 1, 0, 0, 0, 0, 0, 0], [0, 1, 1, 0, 0, 0, 0, 0], [0, 1, 1, 1, 1, 0, 0, 0],
        [1, 0, 0, 1, 1, 1, 1, 1]] : List (List Nat)).getD d []).getD st 0 := by
  interval_cases d <;> interval_cases st <;> rfl

theorem pulse_update_body_expiry (m lo hi : Nat) (p : pulse)
    (h1 : p.len_counter_silenced = false) (h2 : p.sweep_silenced = false)
    (hc : p.counter = 0) (hst : p.step < 8) :
    (pulse_update_body m lo hi p).len_counter_silenced = false ∧
    (pulse_update_body m lo hi p).sweep_silenced = false ∧
    (pulse_update_body m lo hi p).counter = (sweep_current_period lo hi + 65535) % 65536 ∧
    (pulse_update_body m lo hi p).value = duty_value (pulse_main.duty m) p.step ∧
    (pulse_update_body m lo hi p).step = (p.step + 1) % 8 := by
  unfold pulse_update_body
  simp only [h1, h2, hc, Bool.or_self, Bool.false_eq_true, if_false, if_true]
  simp only [sweep_current_period, NUM_PULSE_STEPS]
  refine ⟨trivial, trivial, trivial, trivial, ?_⟩
  split_ifs <;> omega

theorem pulse_update_body_idle (m lo hi : Nat) (p : pulse)
    (h1 : p.len_counter_silenced = false) (h2 : p.sweep_silenced = false)
    (hc : p.counter ≠ 0) (hlt : p.counter < 65536) :
    (pulse_update_body m lo hi p).len_counter_silenced = false ∧
    (pulse_update_body m lo hi p).sweep_silenced = false ∧
    (pulse_update_body m lo hi p).counter = p.counter - 1 ∧
    (pulse_update_body m lo hi p).value = p.value ∧
    (pulse_update_body m lo hi p).step = p.step := by
  unfold pulse_update_body
  simp only [h1, h2, hc, Bool.or_self, Bool.false_eq_true, if_false]
  refine ⟨trivial, trivial, ?_, trivial, trivial⟩
  omega

theorem pulse_update_body_idle_iterate (m lo hi : Nat) (i : Nat) :
    ∀ p : pulse, p.len_counter_silenced = false → p.sweep_silenced = false →
      i ≤ p.counter → p.counter < 65536 →
      ((pulse_update_body m lo hi)^[i] p).len_counter_silenced = false ∧
      ((pulse_update_body m lo hi)^[i] p).sweep_silenced = false ∧
      ((pulse_update_body m lo hi)^[i] p).counter = p.counter - i ∧
      ((pulse_update_body m lo hi)^[i] p).value = p.value ∧
      ((pulse_update_body m lo hi)^[i] p).step = p.step := by
  induction i with
  | zero =>
    intro p h1 h2 _ _
    exact ⟨h1, h2, rfl, rfl, rfl⟩
  | succ i ih =>
    intro p h1 h2 hle hlt
    obtain ⟨a1, a2, a3, a4, a5⟩ :=
      pulse_update_body_idle m lo hi p h1 h2 (by omega) hlt
    obtain ⟨b1, b2, b3, b4, b5⟩ :=
      ih (pulse_update_body m lo hi p) a1 a2 (by omega) (by omega)
    rw [Function.iterate_succ_apply]
    refine ⟨b1, b2, ?_, ?_, ?_⟩
    · rw [b3, a3]
      omega
    · rw [b4, a4]
    · rw [b5, a5]

/-- From an expiry, `r` updates later (`1 ≤ r ≤` the reload interval) the
counter has come down to interval minus `r` and the step has advanced once. -/
theorem pulse_update_body_cycle (m lo hi : Nat) (p : pulse) (r : Nat)
    (h1 : p.len_counter_silenced = false) (h2 : p.sweep_silenced = false)
    (hc : p.counter = 0) (hst : p.step < 8) (hr1 : 1 ≤ r)
    (hr : r ≤ (sweep_current_period lo hi + 65535) % 65536 + 1) :
    ((pulse_update_body m lo hi)^[r] p).len_counter_silenced = false ∧
    ((pulse_update_body m lo hi)^[r] p).sweep_silenced = false ∧
    ((pulse_update_body m lo hi)^[r] p).counter =
      (sweep_current_period lo hi + 65535) % 65536 + 1 - r ∧
    ((pulse_update_body m lo hi)^[r] p).value = duty_value (pulse_main.duty m) p.step ∧
    ((pulse_update_body m lo hi)^[r] p).step = (p.step + 1) % 8 := by
  obtain ⟨q, rfl⟩ : ∃ q, r = q + 1 := ⟨r - 1, by omega⟩
  obtain ⟨a1, a2, a3, a4, a5⟩ := pulse_update_body_expiry m lo hi p h1 h2 hc hst
  obtain ⟨b1, b2, b3, b4, b5⟩ :=
    pulse_update_body_idle_iterate m lo hi q (pulse_update_body m lo hi p) a1 a2
      (by omega) (by omega)
  rw [Function.iterate_succ_apply]
  refine ⟨b1, b2, ?_, ?_, ?_⟩
  · rw [b3, a3]
    omega
  · rw [b4, a4]
  · rw [b5, a5]

theorem pulse_update_body_cycles (m lo hi T : Nat)
    (hT : T = (sweep_current_period lo hi + 65535) % 65536 + 1) (k : Nat) :
    ∀ p : pulse, p.len_counter_silenced = false → p.sweep_silenced = false →
      p.counter = 0 → p.step < 8 →
      ((pulse_update_body m lo hi)^[k * T] p).len_counter_silenced = false ∧
      ((pulse_update_body m lo hi)^[k * T] p).sweep_silenced = false ∧
      ((pulse_update_body m lo hi)^[k * T] p).counter = 0 ∧
      ((pulse_update_body m lo hi)^[k * T] p).step = (p.step + k) % 8 := by
  induction k with
  | zero =>
    intro p h1 h2 hc hst
    simp only [Nat.zero_mul, Function.iterate_zero, id_eq, Nat.add_zero]
    exact ⟨h1, h2, hc, (Nat.mod_eq_of_lt hst).symm⟩
  | succ k ih =>
    intro p h1 h2 hc hst
    have hT1 : 1 ≤ T := by omega
    obtain ⟨a1, a2, a3, _, a5⟩ :=
      pulse_update_body_cycle m lo hi p T h1 h2 hc hst hT1 (Nat.le_of_eq hT)
    obtain ⟨b1, b2, b3, b4⟩ := ih _ a1 a2 (by rw [a3]; omega) (by rw [a5]; omega)
    rw [Nat.succ_mul, Function.iterate_add_apply]
    refine ⟨b1, b2, b3, ?_⟩
    rw [b4, a5]
    omega

/-- Where a channel that expired at update 0 stands after `j` updates. -/
theorem pulse_update_body_after (m lo hi T : Nat)
    (hT : T = (sweep_current_period lo hi + 65535) % 65536 + 1) (p : pulse)
    (h1 : p.len_counter_silenced = false) (h2 : p.sweep_silenced = false)
    (hc : p.counter = 0) (hst : p.step < 8) (k r : Nat) (hr : r ≤ T) :
    (r = 0 → ((pulse_update_body m lo hi)^[k * T + r] p).counter = 0) ∧
    (0 < r → ((pulse_update_body m lo hi)^[k * T + r] p).counter = T - r ∧
      ((pulse_update_body m lo hi)^[k * T + r] p).value =
        duty_value (pulse_main.duty m) ((p.step + k) % 8)) := by
  obtain ⟨a1, a2, a3, a4⟩ := pulse_update_body_cycles m lo hi T hT k p h1 h2 hc hst
  constructor
  · intro h0
    rw [h0, Nat.add_zero]
    exact a3
  · intro h0
    obtain ⟨_, _, b3, b4, _⟩ :=
      pulse_update_body_cycle m lo hi _ r a1 a2 a3 (by rw [a4]; omega) h0 (by omega)
    rw [Nat.add_comm, Function.iterate_add_apply]
    rw [a4] at b4
    exact ⟨by rw [b3, hT], b4⟩

/-- C12: when the timer of an unsilenced channel expires at duty step `st`
(0..7), `pulse_update` emits entry `st` of the duty sequence selected by the
channel's duty field and moves the step to `(st + 1) mod 8`.  Starting at
step 0 with duty 0, the timer expires exactly at the updates whose number is
a multiple of the reload interval (the period, or 65536 for period 0), and
the first sixteen expiries emit 0 1 0 0 0 0 0 0 0 1 0 0 0 0 0 0. -/
theorem pulse_update_duty_sequence (s : apu) (c : Nat) (hc : c = 1 ∨ c = 2)
    (h1 : (get_pulse s c).len_counter_silenced = false)
    (h2 : (get_pulse s c).sweep_silenced = false)
    (h0 : (get_pulse s c).counter = 0) (hst : (get_pulse s c).step < 8) :
    ((get_pulse (pulse_update s) c).value =
        (([[0, 1, 0, 0, 0, 0, 0, 0], [0, 1, 1, 0, 0, 0, 0, 0], [0, 1, 1, 1, 1, 0, 0, 0],
          [1, 0, 0, 1, 1, 1, 1, 1]] : List (List Nat)).getD
            (pulse_main.duty (get_p_main s c)) []).getD (get_pulse s c).step 0 ∧
      (get_pulse (pulse_update s) c).step = ((get_pulse s c).step + 1) % 8) ∧
    ((get_pulse s c).step = 0 → pulse_main.duty (get_p_main s c) = 0 →
      (∀ j : Nat, (get_pulse (pulse_update^[j] s) c).counter = 0 ↔
        j % ((sweep_current_period (get_t_lo s c) (get_t_hi s c) + 65535) % 65536 + 1) = 0) ∧
      (∀ k : Nat, k < 16 →
        ([0, 1, 0, 0, 0, 0, 0, 0, 0, 1, 0, 0, 0, 0, 0, 0] : List Nat)[k]? =
          some (get_pulse (pulse_update^[k *
            ((sweep_current_period (get_t_lo s c) (get_t_hi s c) + 65535) % 65536 + 1) + 1]
              s) c).value)) := by
  constructor
  · obtain ⟨_, _, _, a4, a5⟩ :=
      pulse_update_body_expiry (get_p_main s c) (get_t_lo s c) (get_t_hi s c) (get_pulse s c)
        h1 h2 h0 hst
    rw [get_pulse_pulse_update s c hc]
    refine ⟨?_, a5⟩
    rw [a4]
    exact duty_value_table _ _ (by simp only [pulse_main.duty]; omega) hst
  · intro hs0 hd
    generalize hT : (sweep_current_period (get_t_lo s c) (get_t_hi s c) + 65535) % 65536 + 1 = T
    have hTpos : 0 < T := by omega
    constructor
    · intro j
      have hr : j % T ≤ T := Nat.le_of_lt (Nat.mod_lt j hTpos)
      have hlt : j % T < T := Nat.mod_lt j hTpos
      obtain ⟨b1, b2⟩ :=
        pulse_update_body_after (get_p_main s c) (get_t_lo s c) (get_t_hi s c) T hT.symm
          (get_pulse s c) h1 h2 h0 hst (j / T) (j % T) hr
      rw [Nat.div_add_mod' j T, ← get_pulse_iterate_pulse_update j c hc s] at b1 b2
      constructor
      · intro hz
        by_contra hne
        have := (b2 (Nat.pos_of_ne_zero hne)).1
        omega
      · intro hz
        exact b1 hz
    · intro k hk
      have hT1 : 1 ≤ T := hTpos
      obtain ⟨_, b2⟩ :=
        pulse_update_body_after (get_p_main s c) (get_t_lo s c) (get_t_hi s c) T hT.symm
          (get_pulse s c) h1 h2 h0 hst k 1 hT1
      have hv := (b2 (by decide)).2
      rw [← get_pulse_iterate_pulse_update (k * T + 1) c hc s, hs0, hd] at hv
      rw [hv]
      interval_cases k <;> rfl

theorem pulse_update_duty_sequence_witness :
    (get_pulse (pulse_update apu_zero) 1).value =
        (([[0, 1, 0, 0, 0, 0, 0, 0], [0, 1, 1, 0, 0, 0, 0, 0], [0, 1, 1, 1, 1, 0, 0, 0],
          [1, 0, 0, 1, 1, 1, 1, 1]] : List (List Nat)).getD
            (pulse_main.duty (get_p_main apu_zero 1)) []).getD (get_pulse apu_zero 1).step 0 ∧
      (get_pulse (pulse_update apu_zero) 1).step = ((get_pulse apu_zero 1).step + 1) % 8 :=
  (pulse_update_duty_sequence apu_zero 1 (Or.inl rfl) rfl rfl rfl (by decide)).1


/-! ## Volume envelope -/

/-- The fields of the channel record after one envelope clock. -/
theorem vol_env_tick_body_fields (m : Nat) (p : pulse) :
    (vol_env_tick_body m p).env_start = false ∧
    (vol_env_tick_body m p).env_period =
      (if p.env_start = true then m % 16
        else if p.env_period ≠ 0 then (p.env_period + 255) % 256 else m % 16) ∧
    (vol_env_tick_body m p).env_counter =
      (if p.env_start = true then 15
        else if p.env_period ≠ 0 then p.env_counter
        else if p.env_counter ≠ 0 then (p.env_counter + 255) % 256
        else if m / 32 % 2 ≠ 0 then 15 else p.env_counter) ∧
    (vol_env_tick_body m p).volume =
      (if m / 16 % 2 ≠ 0 then m % 16 else (vol_env_tick_body m p).env_counter) := by
  unfold vol_env_tick_body
  simp only [pulse_main.vol_env, pulse_main.constant_vol, pulse_main.env_loop_len_counter_halt]
  cases hs : p.env_start <;> by_cases hp : p.env_period = 0 <;>
    by_cases hc : p.env_counter = 0 <;> by_cases hl : m / 32 % 2 = 0 <;>
    by_cases hv : m / 16 % 2 = 0 <;> simp [hs, hp, hc, hl, hv]

theorem vol_env_tick_body_loop (m : Nat) (p : pulse) (hcv : m / 16 % 2 = 0)
    (hloop : m / 32 % 2 = 1) (hvol : m % 16 = 3) (hs : p.env_start = false)
    (hd : p.env_counter = 15) (hp : p.env_period = 3) (k : Nat) :
    ((vol_env_tick_body m)^[k] p).env_start = false ∧
    ((vol_env_tick_body m)^[k] p).env_period = 3 - k % 4 ∧
    ((vol_env_tick_body m)^[k] p).env_counter = 15 - (k / 4) % 16 ∧
    (1 ≤ k → ((vol_env_tick_body m)^[k] p).volume = ((vol_env_tick_body m)^[k] p).env_counter) := by
  induction k with
  | zero =>
    refine ⟨hs, ?_, ?_, ?_⟩
    · simpa using hp
    · simpa using hd
    · intro h
      omega
  | succ k ih =>
    obtain ⟨i1, i2, i3, _⟩ := ih
    obtain ⟨f1, f2, f3, f4⟩ := vol_env_tick_body_fields m ((vol_env_tick_body m)^[k] p)
    rw [Function.iterate_succ_apply']
    simp only [i1, i2, i3, Bool.false_eq_true, if_false] at f2 f3
    refine ⟨f1, ?_, ?_, ?_⟩
    · rw [f2]
      split_ifs <;> omega
    · rw [f3]
      split_ifs <;> omega
    · intro _
      rw [f4, if_neg (by omega)]

/-- C13: with constant volume off, the loop flag set and envelope period 3,
starting right after the clock that consumed `env_start` (decay 15, divider
3) the decay counter after `k` further envelope clocks is
`(15 - floor(k / 4)) mod 16`, and after each of those clocks the volume equals
the decay counter. -/
theorem vol_env_tick_saw_loop (s : apu) (c : Nat) (hc : c = 1 ∨ c = 2)
    (hcv : pulse_main.constant_vol (get_p_main s c) = 0)
    (hloop : pulse_main.env_loop_len_counter_halt (get_p_main s c) = 1)
    (hvol : pulse_main.vol_env (get_p_main s c) = 3)
    (hs : (get_pulse s c).env_start = false)
    (hd : (get_pulse s c).env_counter = 15)
    (hp : (get_pulse s c).env_period = 3) (k : Nat) :
    ((get_pulse (vol_env_tick^[k] s) c).env_counter : Int) = (15 - ((k / 4 : Nat) : Int)) % 16 ∧
    (1 ≤ k → (get_pulse (vol_env_tick^[k] s) c).volume =
      (get_pulse (vol_env_tick^[k] s) c).env_counter) := by
  simp only [pulse_main.constant_vol, pulse_main.env_loop_len_counter_halt,
    pulse_main.vol_env] at hcv hloop hvol
  obtain ⟨_, _, a3, a4⟩ :=
    vol_env_tick_body_loop (get_p_main s c) (get_pulse s c) hcv hloop hvol hs hd hp k
  rw [get_pulse_iterate_vol_env_tick k c hc s]
  refine ⟨?_, a4⟩
  rw [a3]
  omega

theorem vol_env_tick_saw_loop_witness :
    ((get_pulse (vol_env_tick^[64]
      (vol_env_tick (apu_writeb (apu_writeb (apu_reset apu_zero) 0x23 0) 0x00 3))) 1).env_counter
        : Int) = (15 - ((64 / 4 : Nat) : Int)) % 16 :=
  (vol_env_tick_saw_loop
    (vol_env_tick (apu_writeb (apu_writeb (apu_reset apu_zero) 0x23 0) 0x00 3)) 1 (Or.inl rfl)
    (by decide) (by decide) (by decide) (by decide) (by decide) (by decide) 64).1

/-- C14, as stated, fails: with envelope period 3 (main register 0x03), loop
clear, `env_start` clear, decay 15 and divider 0, the decay counter is 11
after fifteen envelope clocks, not 0.  The state is reached from reset by
writing main 0x00 and timer-high 0x00, one sequencer tick, then main 0x03. -/
theorem vol_env_tick_decay_fifteen_clocks_nonzero :
    (run (apu_reset apu_zero)
      [op.main_write 0x00 0, op.main_write 0x00 3, op.sequencer_tick,
        op.main_write 0x03 0]).pulse1.env_start = false ∧
    (run (apu_reset apu_zero)
      [op.main_write 0x00 0, op.main_write 0x00 3, op.sequencer_tick,
        op.main_write 0x03 0]).pulse1.env_counter = 15 ∧
    (run (apu_reset apu_zero)
      [op.main_write 0x00 0, op.main_write 0x00 3, op.sequencer_tick,
        op.main_write 0x03 0]).pulse1.env_period = 0 ∧
    pulse_main.env_loop_len_counter_halt (run (apu_reset apu_zero)
      [op.main_write 0x00 0, op.main_write 0x00 3, op.sequencer_tick,
        op.main_write 0x03 0]).r.pulse1_main = 0 ∧
    (vol_env_tick^[15] (run (apu_reset apu_zero)
      [op.main_write 0x00 0, op.main_write 0x00 3, op.sequencer_tick,
        op.main_write 0x03 0])).pulse1.env_counter = 11 := by
  decide

theorem succ_div_mod (j n : Nat) (hn : 0 < n) :
    (j % n + 1 < n → (j + 1) % n = j % n + 1 ∧ (j + 1) / n = j / n) ∧
    (j % n + 1 = n → (j + 1) % n = 0 ∧ (j + 1) / n = j / n + 1) := by
  have h := Nat.mod_add_div j n
  constructor
  · intro hlt
    have := (Nat.div_mod_unique hn).mpr
      (⟨by omega, hlt⟩ : j % n + 1 + n * (j / n) = j + 1 ∧ j % n + 1 < n)
    exact ⟨this.2, this.1⟩
  · intro he
    have e2 : 0 + n * (j / n + 1) = j + 1 := by
      rw [Nat.mul_add, Nat.mul_one]
      omega
    have := (Nat.div_mod_unique hn).mpr
      (⟨e2, hn⟩ : 0 + n * (j / n + 1) = j + 1 ∧ 0 < n)
    exact ⟨this.2, this.1⟩

/-- With the loop flag clear and envelope period `V`, from decay 15 and
divider 0: the divider and decay counter after `j + 1` envelope clocks. -/
theorem vol_env_tick_body_decay (m V : Nat) (p : pulse) (hV : m % 16 = V)
    (hloop : m / 32 % 2 = 0) (hs : p.env_start = false)
    (hd : p.env_counter = 15) (hp : p.env_period = 0) :
    ∀ j : Nat,
      ((vol_env_tick_body m)^[j + 1] p).env_start = false ∧
      ((vol_env_tick_body m)^[j + 1] p).env_period = V - j % (V + 1) ∧
      ((vol_env_tick_body m)^[j + 1] p).env_counter = 15 - (1 + j / (V + 1)) := by
  have hVlt : V < 16 := by omega
  intro j
  induction j with
  | zero =>
    obtain ⟨f1, f2, f3, _⟩ := vol_env_tick_body_fields m p
    simp only [hs, hd, hp, hV, Bool.false_eq_true, if_false] at f2 f3
    simp only [Function.iterate_succ_apply, Function.iterate_zero, id_eq]
    have e1 : 0 % (V + 1) = 0 := Nat.zero_mod _
    have e2 : 0 / (V + 1) = 0 := Nat.zero_div _
    refine ⟨f1, ?_, ?_⟩
    · rw [f2, e1]
      split_ifs <;> omega
    · rw [f3, e2]
      split_ifs <;> omega
  | succ j ih =>
    obtain ⟨i1, i2, i3⟩ := ih
    obtain ⟨f1, f2, f3, _⟩ :=
      vol_env_tick_body_fields m ((vol_env_tick_body m)^[j + 1] p)
    rw [Function.iterate_succ_apply']
    simp only [i1, i2, i3, hV, Bool.false_eq_true, if_false] at f2 f3
    have hmod : j % (V + 1) < V + 1 := Nat.mod_lt j (by omega)
    obtain ⟨g1, g2⟩ := succ_div_mod j (V + 1) (by omega)
    refine ⟨f1, ?_⟩
    clear f1 i1 i2 i3
    generalize (vol_env_tick_body m ((vol_env_tick_body m)^[j + 1] p)).env_period = np at f2 ⊢
    generalize (vol_env_tick_body m ((vol_env_tick_body m)^[j + 1] p)).env_counter = nc at f3 ⊢
    generalize (j + 1) % (V + 1) = r1 at g1 g2 ⊢
    generalize (j + 1) / (V + 1) = q1 at g1 g2 ⊢
    generalize j % (V + 1) = r at f2 f3 g1 g2 hmod
    generalize j / (V + 1) = q at f2 f3 g1 g2
    rw [f2, f3]
    by_cases hc : r + 1 < V + 1
    · obtain ⟨k1, k2⟩ := g1 hc
      constructor
      · split_ifs <;> omega
      · split_ifs <;> omega
    · obtain ⟨k1, k2⟩ := g2 (by omega)
      constructor
      · split_ifs <;> omega
      · split_ifs <;> omega

/-- C14, amended: with the loop flag clear, `env_start` clear, decay 15 and
divider 0, and envelope period `vol_env`, the decay counter is 0 after `k`
envelope clocks exactly when `k ≥ 14 * (vol_env + 1) + 1`: it first reaches 0
after `14 * (vol_env + 1) + 1` clocks (15 clocks when `vol_env = 0`) and
stays 0 from then on. -/
theorem vol_env_tick_decay_reaches_zero (s : apu) (c : Nat) (hc : c = 1 ∨ c = 2)
    (hloop : pulse_main.env_loop_len_counter_halt (get_p_main s c) = 0)
    (hs : (get_pulse s c).env_start = false)
    (hd : (get_pulse s c).env_counter = 15)
    (hp : (get_pulse s c).env_period = 0) (k : Nat) :
    ((get_pulse (vol_env_tick^[k] s) c).env_counter = 0 ↔
      14 * (pulse_main.vol_env (get_p_main s c) + 1) + 1 ≤ k) ∧
    (pulse_main.vol_env (get_p_main s c) = 0 →
      ((get_pulse (vol_env_tick^[k] s) c).env_counter = 0 ↔ 15 ≤ k)) := by
  simp only [pulse_main.env_loop_len_counter_halt] at hloop
  have key : (get_pulse (vol_env_tick^[k] s) c).env_counter = 0 ↔
      14 * (pulse_main.vol_env (get_p_main s c) + 1) + 1 ≤ k := by
    rw [get_pulse_iterate_vol_env_tick k c hc s]
    simp only [pulse_main.vol_env]
    cases k with
    | zero =>
      simp only [Function.iterate_zero, id_eq, hd]
      omega
    | succ j =>
      obtain ⟨_, _, a3⟩ :=
        vol_env_tick_body_decay (get_p_main s c) (get_p_main s c % 16) (get_pulse s c) rfl
          hloop hs hd hp j
      rw [a3]
      have hdiv := Nat.le_div_iff_mul_le (Nat.succ_pos (get_p_main s c % 16))
        (x := 14) (y := j)
      simp only [Nat.succ_eq_add_one] at hdiv
      constructor
      · intro h
        have : 14 ≤ j / (get_p_main s c % 16 + 1) := by omega
        have := hdiv.mp this
        omega
      · intro h
        have : 14 ≤ j / (get_p_main s c % 16 + 1) := hdiv.mpr (by omega)
        omega
  refine ⟨key, ?_⟩
  intro h0
  rw [key, h0]

theorem vol_env_tick_decay_reaches_zero_witness :
    (get_pulse (vol_env_tick^[57] (run (apu_reset apu_zero)
      [op.main_write 0x00 0, op.main_write 0x00 3, op.sequencer_tick,
        op.main_write 0x03 0])) 1).env_counter = 0 :=
  ((vol_env_tick_decay_reaches_zero (run (apu_reset apu_zero)
      [op.main_write 0x00 0, op.main_write 0x00 3, op.sequencer_tick,
        op.main_write 0x03 0]) 1 (Or.inl rfl) (by decide) (by decide) (by decide) (by decide)
      57).1).mpr (by decide)


/-! ## Fields left alone by each routine -/

theorem sweep_tick_ch_pulse1_frame (s : apu) (c : Nat) :
    (sweep_tick_ch s c).pulse1.len_counter_silenced = s.pulse1.len_counter_silenced ∧
    (sweep_tick_ch s c).pulse1.value = s.pulse1.value ∧
    (sweep_tick_ch s c).pulse1.step = s.pulse1.step ∧
    (sweep_tick_ch s c).pulse1.volume = s.pulse1.volume ∧
    (sweep_tick_ch s c).pulse1.counter = s.pulse1.counter ∧
    (sweep_tick_ch s c).pulse1.len_counter = s.pulse1.len_counter ∧
    (sweep_tick_ch s c).pulse1.env_start = s.pulse1.env_start ∧
    (sweep_tick_ch s c).pulse1.env_counter = s.pulse1.env_counter ∧
    (sweep_tick_ch s c).pulse1.env_period = s.pulse1.env_period := by
  unfold sweep_tick_ch
  simp only []
  by_cases hc : c = 1
  · subst hc
    split_ifs <;> simp
  · split_ifs <;> simp [set_pulse, get_pulse, hc]

theorem sweep_tick_ch_pulse2_frame (s : apu) (c : Nat) :
    (sweep_tick_ch s c).pulse2.len_counter_silenced = s.pulse2.len_counter_silenced ∧
    (sweep_tick_ch s c).pulse2.value = s.pulse2.value ∧
    (sweep_tick_ch s c).pulse2.step = s.pulse2.step ∧
    (sweep_tick_ch s c).pulse2.volume = s.pulse2.volume ∧
    (sweep_tick_ch s c).pulse2.counter = s.pulse2.counter ∧
    (sweep_tick_ch s c).pulse2.len_counter = s.pulse2.len_counter ∧
    (sweep_tick_ch s c).pulse2.env_start = s.pulse2.env_start ∧
    (sweep_tick_ch s c).pulse2.env_counter = s.pulse2.env_counter ∧
    (sweep_tick_ch s c).pulse2.env_period = s.pulse2.env_period := by
  unfold sweep_tick_ch
  simp only []
  by_cases hc : c = 1
  · subst hc
    split_ifs <;> simp
  · split_ifs <;> simp [set_pulse, get_pulse, hc]

theorem sweep_tick_pulse1_frame (s : apu) :
    (sweep_tick s).pulse1.len_counter_silenced = s.pulse1.len_counter_silenced ∧
    (sweep_tick s).pulse1.value = s.pulse1.value ∧
    (sweep_tick s).pulse1.step = s.pulse1.step ∧
    (sweep_tick s).pulse1.volume = s.pulse1.volume ∧
    (sweep_tick s).pulse1.counter = s.pulse1.counter ∧
    (sweep_tick s).pulse1.len_counter = s.pulse1.len_counter ∧
    (sweep_tick s).pulse1.env_start = s.pulse1.env_start ∧
    (sweep_tick s).pulse1.env_counter = s.pulse1.env_counter ∧
    (sweep_tick s).pulse1.env_period = s.pulse1.env_period := by
  obtain ⟨a1, a2, a3, a4, a5, a6, a7, a8, a9⟩ := sweep_tick_ch_pulse1_frame s 1
  obtain ⟨b1, b2, b3, b4, b5, b6, b7, b8, b9⟩ :=
    sweep_tick_ch_pulse1_frame (sweep_tick_ch s 1) 2
  unfold sweep_tick
  exact ⟨b1.trans a1, b2.trans a2, b3.trans a3, b4.trans a4, b5.trans a5, b6.trans a6,
    b7.trans a7, b8.trans a8, b9.trans a9⟩

theorem sweep_tick_pulse2_frame (s : apu) :
    (sweep_tick s).pulse2.len_counter_silenced = s.pulse2.len_counter_silenced ∧
    (sweep_tick s).pulse2.value = s.pulse2.value ∧
    (sweep_tick s).pulse2.step = s.pulse2.step ∧
    (sweep_tick s).pulse2.volume = s.pulse2.volume ∧
    (sweep_tick s).pulse2.counter = s.pulse2.counter ∧
    (sweep_tick s).pulse2.len_counter = s.pulse2.len_counter ∧
    (sweep_tick s).pulse2.env_start = s.pulse2.env_start ∧
    (sweep_tick s).pulse2.env_counter = s.pulse2.env_counter ∧
    (sweep_tick s).pulse2.env_period = s.pulse2.env_period := by
  obtain ⟨a1, a2, a3, a4, a5, a6, a7, a8, a9⟩ := sweep_tick_ch_pulse2_frame s 1
  obtain ⟨b1, b2, b3, b4, b5, b6, b7, b8, b9⟩ :=
    sweep_tick_ch_pulse2_frame (sweep_tick_ch s 1) 2
  unfold sweep_tick
  exact ⟨b1.trans a1, b2.trans a2, b3.trans a3, b4.trans a4, b5.trans a5, b6.trans a6,
    b7.trans a7, b8.trans a8, b9.trans a9⟩

theorem sweep_tick_raw_main (s : apu) :
    (sweep_tick s).r.raw 0 = s.r.raw 0 ∧ (sweep_tick s).r.raw 4 = s.r.raw 4 := by
  unfold sweep_tick
  constructor
  · rw [sweep_tick_ch_raw_other _ 2 0 (by decide) (by decide),
      sweep_tick_ch_raw_other _ 1 0 (by decide) (by decide)]
  · rw [sweep_tick_ch_raw_other _ 2 4 (by decide) (by decide),
      sweep_tick_ch_raw_other _ 1 4 (by decide) (by decide)]

theorem pulse_update_body_frame (m lo hi : Nat) (p : pulse) :
    (pulse_update_body m lo hi p).len_counter_silenced = p.len_counter_silenced ∧
    (pulse_update_body m lo hi p).sweep_silenced = p.sweep_silenced ∧
    (pulse_update_body m lo hi p).volume = p.volume ∧
    (pulse_update_body m lo hi p).len_counter = p.len_counter ∧
    (pulse_update_body m lo hi p).env_start = p.env_start ∧
    (pulse_update_body m lo hi p).env_counter = p.env_counter ∧
    (pulse_update_body m lo hi p).env_period = p.env_period ∧
    (pulse_update_body m lo hi p).sweep_reload = p.sweep_reload ∧
    (pulse_update_body m lo hi p).sweep_counter = p.sweep_counter := by
  unfold pulse_update_body
  simp only []
  split_ifs <;> simp

theorem pulse_update_body_counter_lt (m lo hi : Nat) (p : pulse) (h : p.counter < 65536) :
    (pulse_update_body m lo hi p).counter < 65536 := by
  unfold pulse_update_body
  simp only []
  split_ifs
  · exact h
  all_goals
    dsimp only
    omega

theorem vol_env_tick_body_frame (m : Nat) (p : pulse) :
    (vol_env_tick_body m p).len_counter_silenced = p.len_counter_silenced ∧
    (vol_env_tick_body m p).sweep_silenced = p.sweep_silenced ∧
    (vol_env_tick_body m p).value = p.value ∧
    (vol_env_tick_body m p).step = p.step ∧
    (vol_env_tick_body m p).counter = p.counter ∧
    (vol_env_tick_body m p).len_counter = p.len_counter ∧
    (vol_env_tick_body m p).sweep_reload = p.sweep_reload ∧
    (vol_env_tick_body m p).sweep_counter = p.sweep_counter := by
  unfold vol_env_tick_body
  simp only []
  split_ifs <;> simp

/-- A property kept by each part of `seq_tick` is kept by `seq_tick`. -/
theorem seq_tick_preserves (P : apu → Prop)
    (hstep : ∀ (s : apu) (v : Int), P s → P { s with seq_step := v })
    (hstat : ∀ (s : apu) (v : Nat), P s → P { s with r := { s.r with stat := v } })
    (hl : ∀ s : apu, P s → P (length_counter_tick s))
    (hs : ∀ s : apu, P s → P (sweep_tick s))
    (he : ∀ s : apu, P s → P (vol_env_tick s)) (s : apu) (h : P s) : P (seq_tick s).1 := by
  have hl2 : ∀ (l : Bool) (t : apu), P t →
      P (if l = true then sweep_tick (length_counter_tick t) else t) := by
    intro l t ht
    cases l
    · exact ht
    · exact hs _ (hl _ ht)
  have he2 : ∀ (e : Bool) (t : apu), P t → P (if e = true then vol_env_tick t else t) := by
    intro e t ht
    cases e
    · exact ht
    · exact he _ ht
  have hstat2 : ∀ (c : Prop) [Decidable c] (t : apu) (v : Nat), P t →
      P (if c then { t with r := { t.r with stat := v } } else t) := by
    intro c _ t v ht
    split_ifs
    · exact hstat t v ht
    · exact ht
  have hstep2 : ∀ (c : Prop) [Decidable c] (t : apu) (v : Int), P t →
      P (if c then { t with seq_step := v } else t) := by
    intro c _ t v ht
    split_ifs
    · exact hstep t v ht
    · exact ht
  have h1 : P { s with seq_step := s.seq_step + 1 } := hstep s _ h
  unfold seq_tick
  exact he2 _ _ (hl2 _ _ (hstat2 _ _ _ (hstep2 _ _ _ h1)))

/-- A property kept by `pulse_update` and by changes of `cycle` is kept by
`apu_tick`. -/
theorem apu_tick_preserves (P : apu → Prop)
    (hcycle : ∀ (s : apu) (v : Int), P s → P { s with cycle := v })
    (hu : ∀ s : apu, P s → P (pulse_update s)) (s : apu) (h : P s) : P (apu_tick s).1 := by
  unfold apu_tick
  simp only []
  split_ifs
  · exact hcycle _ _ (hu _ (hcycle _ _ h))
  · exact hcycle _ _ h

theorem run_preserves (P : apu → Prop) (ops : List op) :
    ∀ s : apu, (∀ (t : apu) (o : op), o ∈ ops → P t → P (step t o)) → P s → P (run s ops) := by
  induction ops with
  | nil =>
    intro s _ h
    exact h
  | cons o rest ih =>
    intro s hstep h
    exact ih (step s o) (fun t o2 ho2 => hstep t o2 (List.mem_cons_of_mem o ho2))
      (hstep s o (List.mem_cons_self o rest) h)

/-- Induction over the states reachable from reset. -/
theorem reachable_induction (P : apu → Prop) (h0 : ∀ s0 : apu, P (apu_reset s0))
    (hstep : ∀ (t : apu) (o : op), P t → P (step t o)) (s : apu) (hr : reachable s) : P s := by
  obtain ⟨s0, ops, rfl⟩ := hr
  exact run_preserves P ops (apu_reset s0) (fun t o _ => hstep t o) (h0 s0)

theorem apu_writeb_pulse_frame (s : apu) (b : Nat) (a : Fin NUM_REGS) :
    (apu_writeb s b a).pulse1.counter = s.pulse1.counter ∧
    (apu_writeb s b a).pulse2.counter = s.pulse2.counter ∧
    (apu_writeb s b a).pulse1.step = s.pulse1.step ∧
    (apu_writeb s b a).pulse2.step = s.pulse2.step := by
  unfold apu_writeb
  simp only []
  split_ifs <;> exact ⟨rfl, rfl, rfl, rfl⟩

theorem seq_writeb_pulses (s : apu) (b : Nat) :
    (seq_writeb s b).pulse1 = s.pulse1 ∧ (seq_writeb s b).pulse2 = s.pulse2 := by
  unfold seq_writeb
  simp only []
  split_ifs <;> exact ⟨rfl, rfl⟩

/-! ## The timer counter -/

/-- C16, as stated, fails: with period 0 an unsilenced channel's reload is
followed by the decrement, which wraps the 16-bit counter to 0xFFFF.  Reached
from reset by writing main 0x20 (halt), two sequencer ticks and two sample
ticks. -/
theorem pulse_counter_wraps_reachable :
    reachable (run (apu_reset apu_zero)
      [op.main_write 0x20 0, op.sequencer_tick, op.sequencer_tick, op.sample_tick,
        op.sample_tick]) ∧
    (run (apu_reset apu_zero)
      [op.main_write 0x20 0, op.sequencer_tick, op.sequencer_tick, op.sample_tick,
        op.sample_tick]).pulse1.counter = 0xFFFF :=
  ⟨⟨apu_zero, _, rfl⟩, by decide⟩

/-- C16, amended: in every state reachable from reset each pulse channel's
timer counter is a 16-bit value. -/
theorem reachable_pulse_counter_le (s : apu) (hr : reachable s) :
    s.pulse1.counter ≤ 0xFFFF ∧ s.pulse2.counter ≤ 0xFFFF := by
  have key : s.pulse1.counter < 65536 ∧ s.pulse2.counter < 65536 := by
    refine reachable_induction (fun t => t.pulse1.counter < 65536 ∧ t.pulse2.counter < 65536)
      ?_ ?_ s hr
    · intro s0
      have e1 : (apu_reset s0).pulse1.counter = 0 := rfl
      have e2 : (apu_reset s0).pulse2.counter = 0 := rfl
      show (apu_reset s0).pulse1.counter < 65536 ∧ (apu_reset s0).pulse2.counter < 65536
      rw [e1, e2]
      exact ⟨by decide, by decide⟩
    · intro t o ht
      cases o with
      | main_write b a =>
        obtain ⟨e1, e2, _, _⟩ := apu_writeb_pulse_frame t b a
        show (apu_writeb t b a).pulse1.counter < 65536 ∧ (apu_writeb t b a).pulse2.counter < 65536
        rw [e1, e2]
        exact ht
      | ctrl_write b =>
        show (ctrl_writeb t b).pulse1.counter < 65536 ∧ (ctrl_writeb t b).pulse2.counter < 65536
        rw [ctrl_writeb_eq]
        exact ht
      | seq_write b =>
        obtain ⟨e1, e2⟩ := seq_writeb_pulses t b
        show (seq_writeb t b).pulse1.counter < 65536 ∧ (seq_writeb t b).pulse2.counter < 65536
        rw [e1, e2]
        exact ht
      | stat_read => exact ht
      | sample_tick =>
        refine apu_tick_preserves
          (fun t => t.pulse1.counter < 65536 ∧ t.pulse2.counter < 65536) ?_ ?_ t ht
        · intro u v hu
          exact hu
        · intro u hu
          show (pulse_update u).pulse1.counter < 65536 ∧ (pulse_update u).pulse2.counter < 65536
          rw [pulse_update_pulse1, pulse_update_pulse2]
          exact ⟨pulse_update_body_counter_lt _ _ _ _ hu.1,
            pulse_update_body_counter_lt _ _ _ _ hu.2⟩
      | sequencer_tick =>
        refine seq_tick_preserves
          (fun t => t.pulse1.counter < 65536 ∧ t.pulse2.counter < 65536) ?_ ?_ ?_ ?_ ?_ t ht
        · intro u v hu
          exact hu
        · intro u v hu
          exact hu
        · intro u hu
          show (length_counter_tick u).pulse1.counter < 65536 ∧
            (length_counter_tick u).pulse2.counter < 65536
          rw [length_counter_tick_pulse1, length_counter_tick_pulse2]
          exact hu
        · intro u hu
          show (sweep_tick u).pulse1.counter < 65536 ∧ (sweep_tick u).pulse2.counter < 65536
          rw [(sweep_tick_pulse1_frame u).2.2.2.2.1, (sweep_tick_pulse2_frame u).2.2.2.2.1]
          exact hu
        · intro u hu
          show (vol_env_tick u).pulse1.counter < 65536 ∧ (vol_env_tick u).pulse2.counter < 65536
          rw [vol_env_tick_pulse1, vol_env_tick_pulse2,
            (vol_env_tick_body_frame _ _).2.2.2.2.1, (vol_env_tick_body_frame _ _).2.2.2.2.1]
          exact hu
  omega

theorem reachable_pulse_counter_le_witness :
    (run (apu_reset apu_zero)
      [op.main_write 0x20 0, op.sequencer_tick, op.sequencer_tick, op.sample_tick,
        op.sample_tick]).pulse1.counter ≤ 0xFFFF ∧
    (run (apu_reset apu_zero)
      [op.main_write 0x20 0, op.sequencer_tick, op.sequencer_tick, op.sample_tick,
        op.sample_tick]).pulse2.counter ≤ 0xFFFF :=
  reachable_pulse_counter_le _ ⟨apu_zero, _, rfl⟩



/-- C18, as stated, fails: an unsilenced channel with `counter = 0` and period
0x040 has `counter = 0x03F` after `pulse_update`, because the decrement also
runs after the reload.  The state is reached from reset by writing main 0x20
and timer-low 0x40 followed by two sequencer ticks. -/
theorem pulse_update_reload_then_decrement :
    (run (apu_reset apu_zero)
      [op.main_write 0x20 0, op.main_write 0x40 2, op.sequencer_tick,
        op.sequencer_tick]).pulse1.len_counter_silenced = false ∧
    (run (apu_reset apu_zero)
      [op.main_write 0x20 0, op.main_write 0x40 2, op.sequencer_tick,
        op.sequencer_tick]).pulse1.sweep_silenced = false ∧
    (run (apu_reset apu_zero)
      [op.main_write 0x20 0, op.main_write 0x40 2, op.sequencer_tick,
        op.sequencer_tick]).pulse1.counter = 0 ∧
    sweep_current_period
      (run (apu_reset apu_zero)
        [op.main_write 0x20 0, op.main_write 0x40 2, op.sequencer_tick,
          op.sequencer_tick]).r.pulse1_t_lo
      (run (apu_reset apu_zero)
        [op.main_write 0x20 0, op.main_write 0x40 2, op.sequencer_tick,
          op.sequencer_tick]).r.pulse1_t_hi = 0x040 ∧
    (pulse_update (run (apu_reset apu_zero)
      [op.main_write 0x20 0, op.main_write 0x40 2, op.sequencer_tick,
        op.sequencer_tick])).pulse1.counter = 0x03F := by
  decide

/-- C18, amended: for a channel with both silencing flags clear (counter a
16-bit value, duty step in 0..7): if the counter is 0 before `pulse_update`,
afterwards it is the period minus one modulo 2^16 (the period is reloaded and
then decremented; 0xFFFF for period 0), the duty bit of the old step has been
emitted and the step has advanced modulo 8; otherwise the counter has been
decremented by one and the duty output and step are unchanged. -/
theorem pulse_update_unsilenced (s : apu) (c : Nat) (hc : c = 1 ∨ c = 2)
    (h1 : (get_pulse s c).len_counter_silenced = false)
    (h2 : (get_pulse s c).sweep_silenced = false)
    (hcnt : (get_pulse s c).counter < 65536) (hst : (get_pulse s c).step < 8) :
    ((get_pulse s c).counter = 0 →
      (get_pulse (pulse_update s) c).counter =
        (sweep_current_period (get_t_lo s c) (get_t_hi s c) + 65535) % 65536 ∧
      (1 ≤ sweep_current_period (get_t_lo s c) (get_t_hi s c) →
        (get_pulse (pulse_update s) c).counter =
          sweep_current_period (get_t_lo s c) (get_t_hi s c) - 1) ∧
      (sweep_current_period (get_t_lo s c) (get_t_hi s c) = 0 →
        (get_pulse (pulse_update s) c).counter = 0xFFFF) ∧
      (get_pulse (pulse_update s) c).value =
        duty_value (pulse_main.duty (get_p_main s c)) (get_pulse s c).step ∧
      (get_pulse (pulse_update s) c).step = ((get_pulse s c).step + 1) % 8) ∧
    ((get_pulse s c).counter ≠ 0 →
      (get_pulse (pulse_update s) c).counter = (get_pulse s c).counter - 1 ∧
      (get_pulse (pulse_update s) c).value = (get_pulse s c).value ∧
      (get_pulse (pulse_update s) c).step = (get_pulse s c).step) := by
  rw [get_pulse_pulse_update s c hc]
  have hper : sweep_current_period (get_t_lo s c) (get_t_hi s c) < 65536 := by
    unfold sweep_current_period
    exact Nat.mod_lt _ (by decide)
  constructor
  · intro h0
    obtain ⟨_, _, a3, a4, a5⟩ :=
      pulse_update_body_expiry (get_p_main s c) (get_t_lo s c) (get_t_hi s c) (get_pulse s c)
        h1 h2 h0 hst
    refine ⟨a3, ?_, ?_, a4, a5⟩
    · intro hp
      rw [a3]
      omega
    · intro hp
      rw [a3, hp]
  · intro h0
    obtain ⟨_, _, a3, a4, a5⟩ :=
      pulse_update_body_idle (get_p_main s c) (get_t_lo s c) (get_t_hi s c) (get_pulse s c)
        h1 h2 h0 hcnt
    exact ⟨a3, a4, a5⟩

theorem pulse_update_unsilenced_witness :
    (get_pulse (pulse_update (run (apu_reset apu_zero)
      [op.main_write 0x20 0, op.main_write 0x40 2, op.sequencer_tick,
        op.sequencer_tick])) 1).counter =
      (sweep_current_period
        (get_t_lo (run (apu_reset apu_zero)
          [op.main_write 0x20 0, op.main_write 0x40 2, op.sequencer_tick,
            op.sequencer_tick]) 1)
        (get_t_hi (run (apu_reset apu_zero)
          [op.main_write 0x20 0, op.main_write 0x40 2, op.sequencer_tick,
            op.sequencer_tick]) 1) + 65535) % 65536 :=
  ((pulse_update_unsilenced (run (apu_reset apu_zero)
      [op.main_write 0x20 0, op.main_write 0x40 2, op.sequencer_tick,
        op.sequencer_tick]) 1 (Or.inl rfl) (by decide) (by decide) (by decide)
      (by decide)).1 (by decide)).1

/-! ## The square-tone scenario -/

/-- C15, as stated, fails: after control 0x01, pulse-1 main 0x3F, timer-low
0x40 and timer-high 0x08 the period is 0x040 and the length counter 254, but
main 0x3F has the halt bit set, so a length clock leaves the counter at 254:
both applied directly and after two sequencer ticks (the second clocks the
length unit). -/
theorem pulse1_tone_length_counter_not_decreased :
    sweep_current_period
      (run (apu_reset apu_zero)
        [op.ctrl_write 0x01, op.main_write 0x3F 0, op.main_write 0x40 2,
          op.main_write 0x08 3]).r.pulse1_t_lo
      (run (apu_reset apu_zero)
        [op.ctrl_write 0x01, op.main_write 0x3F 0, op.main_write 0x40 2,
          op.main_write 0x08 3]).r.pulse1_t_hi = 0x040 ∧
    (run (apu_reset apu_zero)
      [op.ctrl_write 0x01, op.main_write 0x3F 0, op.main_write 0x40 2,
        op.main_write 0x08 3]).pulse1.len_counter = 254 ∧
    (length_counter_tick (run (apu_reset apu_zero)
      [op.ctrl_write 0x01, op.main_write 0x3F 0, op.main_write 0x40 2,
        op.main_write 0x08 3])).pulse1.len_counter = 254 ∧
    (run (apu_reset apu_zero)
      [op.ctrl_write 0x01, op.main_write 0x3F 0, op.main_write 0x40 2,
        op.main_write 0x08 3, op.sequencer_tick, op.sequencer_tick]).pulse1.len_counter
      = 254 := by
  decide

/-- With the halt bit of pulse 1 set, callbacks other than writes keep the
pulse-1 main register and length counter. -/
theorem step_keeps_halted_length_counter (m n : Nat) (hm : m / 32 % 2 ≠ 0) (t : apu) (o : op)
    (ho : o = op.stat_read ∨ o = op.sample_tick ∨ o = op.sequencer_tick)
    (ht : t.r.raw 0 = m ∧ t.pulse1.len_counter = n) :
    (step t o).r.raw 0 = m ∧ (step t o).pulse1.len_counter = n := by
  rcases ho with rfl | rfl | rfl
  · exact ht
  · refine apu_tick_preserves (fun t => t.r.raw 0 = m ∧ t.pulse1.len_counter = n) ?_ ?_ t ht
    · intro u v hu
      exact hu
    · intro u hu
      show (pulse_update u).r.raw 0 = m ∧ (pulse_update u).pulse1.len_counter = n
      rw [pulse_update_r, pulse_update_pulse1, (pulse_update_body_frame _ _ _ _).2.2.2.1]
      exact hu
  · refine seq_tick_preserves (fun t => t.r.raw 0 = m ∧ t.pulse1.len_counter = n)
      ?_ ?_ ?_ ?_ ?_ t ht
    · intro u v hu
      exact hu
    · intro u v hu
      exact hu
    · intro u hu
      show (length_counter_tick u).r.raw 0 = m ∧ (length_counter_tick u).pulse1.len_counter = n
      rw [length_counter_tick_raw, length_counter_tick_pulse1]
      refine ⟨hu.1, ?_⟩
      have hne : ¬ (u.r.raw 0 / 32 % 2 = 0 ∧ u.pulse1.len_counter ≠ 0) := by
        rw [hu.1]
        intro h
        exact hm h.1
      simp only [if_neg hne]
      exact hu.2
    · intro u hu
      show (sweep_tick u).r.raw 0 = m ∧ (sweep_tick u).pulse1.len_counter = n
      rw [(sweep_tick_raw_main u).1, (sweep_tick_pulse1_frame u).2.2.2.2.2.1]
      exact hu
    · intro u hu
      show (vol_env_tick u).r.raw 0 = m ∧ (vol_env_tick u).pulse1.len_counter = n
      rw [vol_env_tick_r, vol_env_tick_pulse1, (vol_env_tick_body_frame _ _).2.2.2.2.2.1]
      exact hu

/-- C15, amended: from reset, after control 0x01, pulse-1 main 0x3F, timer-low
0x40 and timer-high 0x08, pulse 1's period is 0x040 and its length counter is
254; main 0x3F sets the halt bit, so with no further writes the length
counter is still 254 after any sequence of status reads, sample ticks and
sequencer ticks, and a length clock applied then leaves it at 254. -/
theorem pulse1_tone_length_counter_halted (s0 : apu) (ops : List op)
    (hops : ∀ o : op, o ∈ ops → o = op.stat_read ∨ o = op.sample_tick ∨ o = op.sequencer_tick) :
    sweep_current_period
      (run (apu_reset s0)
        [op.ctrl_write 0x01, op.main_write 0x3F 0, op.main_write 0x40 2,
          op.main_write 0x08 3]).r.pulse1_t_lo
      (run (apu_reset s0)
        [op.ctrl_write 0x01, op.main_write 0x3F 0, op.main_write 0x40 2,
          op.main_write 0x08 3]).r.pulse1_t_hi = 0x040 ∧
    (run (apu_reset s0)
      [op.ctrl_write 0x01, op.main_write 0x3F 0, op.main_write 0x40 2,
        op.main_write 0x08 3]).pulse1.len_counter = 254 ∧
    pulse_main.env_loop_len_counter_halt (run (apu_reset s0)
      [op.ctrl_write 0x01, op.main_write 0x3F 0, op.main_write 0x40 2,
        op.main_write 0x08 3]).r.pulse1_main = 1 ∧
    (run (run (apu_reset s0)
      [op.ctrl_write 0x01, op.main_write 0x3F 0, op.main_write 0x40 2,
        op.main_write 0x08 3]) ops).pulse1.len_counter = 254 ∧
    (length_counter_tick (run (run (apu_reset s0)
      [op.ctrl_write 0x01, op.main_write 0x3F 0, op.main_write 0x40 2,
        op.main_write 0x08 3]) ops)).pulse1.len_counter = 254 := by
  generalize hS : run (apu_reset s0)
      [op.ctrl_write 0x01, op.main_write 0x3F 0, op.main_write 0x40 2,
        op.main_write 0x08 3] = S
  have r0 : S.r.raw 0 = 0x3F := by
    rw [← hS]
    simp only [run, List.foldl, step, apu_writeb_r]
    simp [apu_regs.set_raw]
  have r2 : S.r.raw 2 = 0x40 := by
    rw [← hS]
    simp only [run, List.foldl, step, apu_writeb_r]
    simp [apu_regs.set_raw]
  have r3 : S.r.raw 3 = 0x08 := by
    rw [← hS]
    simp only [run, List.foldl, step, apu_writeb_r]
    simp [apu_regs.set_raw]
  have l0 : S.pulse1.len_counter = 254 := by
    rw [← hS]
    simp only [run, List.foldl, step, apu_writeb_pulse1_timer_high, apu_writeb_r,
      ctrl_writeb_eq]
    simp [apu_regs.set_raw, len_counter_table]
  have inv := run_preserves (fun t => t.r.raw 0 = 0x3F ∧ t.pulse1.len_counter = 254) ops S
    (fun t o ho ht => step_keeps_halted_length_counter 0x3F 254 (by decide) t o (hops o ho) ht)
    ⟨r0, l0⟩
  refine ⟨?_, l0, ?_, inv.2, ?_⟩
  · simp only [apu_regs.pulse1_t_lo, apu_regs.pulse1_t_hi, r2, r3]
    decide
  · simp only [apu_regs.pulse1_main, r0]
    decide
  · rw [length_counter_tick_pulse1]
    have hne : ¬ ((run S ops).r.raw 0 / 32 % 2 = 0 ∧ (run S ops).pulse1.len_counter ≠ 0) := by
      rw [inv.1]
      intro h
      exact absurd h.1 (by decide)
    simp only [if_neg hne]
    exact inv.2

theorem pulse1_tone_length_counter_halted_witness :
    (run (run (apu_reset apu_zero)
      [op.ctrl_write 0x01, op.main_write 0x3F 0, op.main_write 0x40 2,
        op.main_write 0x08 3])
      [op.sequencer_tick, op.sample_tick, op.sequencer_tick, op.stat_read]).pulse1.len_counter
      = 254 :=
  (pulse1_tone_length_counter_halted apu_zero
    [op.sequencer_tick, op.sample_tick, op.sequencer_tick, op.stat_read]
    (by decide)).2.2.2.1



/-! ## Envelope rules -/

/-- C20: `vol_env_tick` on a channel (divider and decay counter being bytes):
a set `env_start` is cleared, the decay counter becomes 15 and the divider
`vol_env`; otherwise a non-zero divider is decremented with the decay counter
unchanged, and a zero divider is reloaded with `vol_env` while the decay
counter is decremented when non-zero, set to 15 when zero with the loop bit
set, and left at 0 when zero with the loop bit clear; finally the volume is
`vol_env` under constant volume and the resulting decay counter otherwise. -/
theorem vol_env_tick_rules (s : apu) (c : Nat) (hc : c = 1 ∨ c = 2)
    (hper : (get_pulse s c).env_period < 256) (hcnt : (get_pulse s c).env_counter < 256) :
    ((get_pulse s c).env_start = true →
      (get_pulse (vol_env_tick s) c).env_start = false ∧
      (get_pulse (vol_env_tick s) c).env_counter = 15 ∧
      (get_pulse (vol_env_tick s) c).env_period = pulse_main.vol_env (get_p_main s c)) ∧
    ((get_pulse s c).env_start = false → 0 < (get_pulse s c).env_period →
      (get_pulse (vol_env_tick s) c).env_start = false ∧
      (get_pulse (vol_env_tick s) c).env_period = (get_pulse s c).env_period - 1 ∧
      (get_pulse (vol_env_tick s) c).env_counter = (get_pulse s c).env_counter) ∧
    ((get_pulse s c).env_start = false → (get_pulse s c).env_period = 0 →
      (get_pulse (vol_env_tick s) c).env_start = false ∧
      (get_pulse (vol_env_tick s) c).env_period = pulse_main.vol_env (get_p_main s c) ∧
      ((get_pulse s c).env_counter ≠ 0 →
        (get_pulse (vol_env_tick s) c).env_counter = (get_pulse s c).env_counter - 1) ∧
      ((get_pulse s c).env_counter = 0 →
        pulse_main.env_loop_len_counter_halt (get_p_main s c) = 1 →
        (get_pulse (vol_env_tick s) c).env_counter = 15) ∧
      ((get_pulse s c).env_counter = 0 →
        pulse_main.env_loop_len_counter_halt (get_p_main s c) = 0 →
        (get_pulse (vol_env_tick s) c).env_counter = 0)) ∧
    (pulse_main.constant_vol (get_p_main s c) = 1 →
      (get_pulse (vol_env_tick s) c).volume = pulse_main.vol_env (get_p_main s c)) ∧
    (pulse_main.constant_vol (get_p_main s c) = 0 →
      (get_pulse (vol_env_tick s) c).volume = (get_pulse (vol_env_tick s) c).env_counter) := by
  rw [get_pulse_vol_env_tick s c hc]
  obtain ⟨f1, f2, f3, f4⟩ := vol_env_tick_body_fields (get_p_main s c) (get_pulse s c)
  simp only [pulse_main.vol_env, pulse_main.env_loop_len_counter_halt, pulse_main.constant_vol]
  generalize (get_pulse s c).env_period = per at *
  generalize (get_pulse s c).env_counter = cnt at *
  refine ⟨?_, ?_, ?_, ?_, ?_⟩
  · intro h
    rw [h] at f2 f3
    exact ⟨f1, by simpa using f3, by simpa using f2⟩
  · intro h hp
    rw [h] at f2 f3
    have hne : per ≠ 0 := by omega
    simp only [Bool.false_eq_true, if_false, hne, ne_eq, not_false_eq_true, if_true] at f2 f3
    exact ⟨f1, by rw [f2]; omega, f3⟩
  · intro h hp
    rw [h] at f2 f3
    simp only [Bool.false_eq_true, if_false, hp, ne_eq, not_true_eq_false] at f2 f3
    refine ⟨f1, f2, ?_, ?_, ?_⟩
    · intro hne
      rw [f3, if_pos hne]
      omega
    · intro h0 hl
      rw [f3, if_neg (by omega), if_pos (by omega)]
    · intro h0 hl
      rw [f3, if_neg (by omega), if_neg (by omega)]
      exact h0
  · intro h
    rw [f4, if_pos (by omega)]
  · intro h
    rw [f4, if_neg (by omega)]

theorem vol_env_tick_rules_witness :
    (get_pulse (vol_env_tick (apu_writeb (apu_writeb (apu_reset apu_zero) 0x23 0) 0x00 3))
      1).env_start = false ∧
    (get_pulse (vol_env_tick (apu_writeb (apu_writeb (apu_reset apu_zero) 0x23 0) 0x00 3))
      1).env_counter = 15 ∧
    (get_pulse (vol_env_tick (apu_writeb (apu_writeb (apu_reset apu_zero) 0x23 0) 0x00 3))
      1).env_period =
      pulse_main.vol_env (get_p_main (apu_writeb (apu_writeb (apu_reset apu_zero) 0x23 0) 0x00 3)
        1) :=
  (vol_env_tick_rules (apu_writeb (apu_writeb (apu_reset apu_zero) 0x23 0) 0x00 3) 1
    (Or.inl rfl) (by decide) (by decide)).1 (by decide)

/-! ## Frame sequencer schedule -/

/-- C17: `seq_tick` with the step `st` inside the schedule of the current
mode.  Mode 0: the step becomes `(st + 1) mod 4`, the frame-interrupt bit is
set at step 3 (inhibit clear), the length counters and then the sweep units
are clocked at steps 1 and 3, and the envelopes are clocked afterwards on
every step.  Mode 1: the step becomes `(st + 1) mod 5`, the frame-interrupt
bit keeps its value, length and sweep are clocked at steps 0 and 2 and the
envelopes at steps 0..3.  Where a unit is not clocked, the state passes
through unchanged. -/
theorem seq_tick_schedule (s : apu) :
    (seq.mode s.r.seq = 0 → 0 ≤ s.seq_step → s.seq_step < 4 →
      (seq_tick s).1 =
        vol_env_tick
          (if s.seq_step = 1 ∨ s.seq_step = 3 then
            sweep_tick (length_counter_tick
              { s with
                seq_step := (s.seq_step + 1) % 4
                r := { s.r with
                  stat :=
                    if s.seq_step = 3 ∧ seq.int_inhibit s.r.seq = 0 then
                      apu_stat.set_frame_interrupt s.r.stat 1
                    else s.r.stat } })
          else
            { s with
              seq_step := (s.seq_step + 1) % 4
              r := { s.r with
                stat :=
                  if s.seq_step = 3 ∧ seq.int_inhibit s.r.seq = 0 then
                    apu_stat.set_frame_interrupt s.r.stat 1
                  else s.r.stat } })) ∧
    (seq.mode s.r.seq = 1 → 0 ≤ s.seq_step → s.seq_step < 5 →
      (seq_tick s).1 =
        (if s.seq_step ≤ 3 then
          vol_env_tick
            (if s.seq_step = 0 ∨ s.seq_step = 2 then
              sweep_tick (length_counter_tick { s with seq_step := (s.seq_step + 1) % 5 })
            else { s with seq_step := (s.seq_step + 1) % 5 })
        else { s with seq_step := (s.seq_step + 1) % 5 }) ∧
      apu_stat.frame_interrupt (seq_tick s).1.r.stat = apu_stat.frame_interrupt s.r.stat) := by
  constructor
  · intro hm h0 h4
    have hk : s.seq_step = 0 ∨ s.seq_step = 1 ∨ s.seq_step = 2 ∨ s.seq_step = 3 := by omega
    simp only [seq.mode] at hm
    by_cases hi : s.r.seq / 64 % 2 = 0 <;> rcases hk with hk | hk | hk | hk <;>
      simp [seq_tick, hm, hk, hi]
  · intro hm h0 h5
    have hk : s.seq_step = 0 ∨ s.seq_step = 1 ∨ s.seq_step = 2 ∨ s.seq_step = 3 ∨
        s.seq_step = 4 := by omega
    have hfi := seq_tick_frame_interrupt s
    simp only [seq.mode] at hm
    have hne : ¬ (seq.mode s.r.seq = 0 ∧ s.seq_step = 3 ∧ seq.int_inhibit s.r.seq = 0) := by
      simp only [seq.mode]
      omega
    rw [if_neg hne] at hfi
    refine ⟨?_, hfi⟩
    rcases hk with hk | hk | hk | hk | hk <;>
      simp [seq_tick, hm, hk]

theorem seq_tick_schedule_witness :
    (seq_tick (seq_writeb (apu_reset apu_zero) 0x80)).1 =
      (if (seq_writeb (apu_reset apu_zero) 0x80).seq_step ≤ 3 then
        vol_env_tick
          (if (seq_writeb (apu_reset apu_zero) 0x80).seq_step = 0 ∨
              (seq_writeb (apu_reset apu_zero) 0x80).seq_step = 2 then
            sweep_tick (length_counter_tick
              { seq_writeb (apu_reset apu_zero) 0x80 with
                seq_step := ((seq_writeb (apu_reset apu_zero) 0x80).seq_step + 1) % 5 })
          else
            { seq_writeb (apu_reset apu_zero) 0x80 with
              seq_step := ((seq_writeb (apu_reset apu_zero) 0x80).seq_step + 1) % 5 })
      else
        { seq_writeb (apu_reset apu_zero) 0x80 with
          seq_step := ((seq_writeb (apu_reset apu_zero) 0x80).seq_step + 1) % 5 }) :=
  ((seq_tick_schedule (seq_writeb (apu_reset apu_zero) 0x80)).2 (by decide) (by decide)
    (by decide)).1



/-! ## Sweep divider and write-back -/

theorem sweep_tick_ch_one_pulse2 (s : apu) : (sweep_tick_ch s 1).pulse2 = s.pulse2 := by
  unfold sweep_tick_ch
  simp only []
  split_ifs <;> simp

theorem sweep_tick_ch_effect (s : apu) (c : Nat) (hc : c = 1 ∨ c = 2) :
    (get_pulse (sweep_tick_ch s c) c).sweep_reload = false ∧
    (get_pulse (sweep_tick_ch s c) c).sweep_counter =
      (if (get_pulse s c).sweep_reload = true then pulse_sweep.period (get_sweep s c)
        else if (get_pulse s c).sweep_counter ≠ 0 then ((get_pulse s c).sweep_counter + 255) % 256
        else if pulse_sweep.enabled (get_sweep s c) ≠ 0 then pulse_sweep.period (get_sweep s c)
        else (get_pulse s c).sweep_counter) ∧
    get_t_lo (sweep_tick_ch s c) c =
      (if (decide ((get_pulse s c).sweep_counter = 0) && decide (pulse_sweep.enabled (get_sweep s c) ≠ 0) &&
        !(decide (pulse_sweep.enabled (get_sweep s c) ≠ 0) &&
          decide (sweep_current_period (get_t_lo s c) (get_t_hi s c) < 8 ∨
            sweep_target_period c (get_sweep s c) (sweep_current_period (get_t_lo s c) (get_t_hi s c)) > 0x7FF)) &&
        decide (pulse_sweep.shift (get_sweep s c) ≠ 0)) = true
        then sweep_target_period c (get_sweep s c) (sweep_current_period (get_t_lo s c) (get_t_hi s c)) &&& 0xFF
        else (get_t_lo s c)) ∧
    get_t_hi (sweep_tick_ch s c) c =
      (if (decide ((get_pulse s c).sweep_counter = 0) && decide (pulse_sweep.enabled (get_sweep s c) ≠ 0) &&
        !(decide (pulse_sweep.enabled (get_sweep s c) ≠ 0) &&
          decide (sweep_current_period (get_t_lo s c) (get_t_hi s c) < 8 ∨
            sweep_target_period c (get_sweep s c) (sweep_current_period (get_t_lo s c) (get_t_hi s c)) > 0x7FF)) &&
        decide (pulse_sweep.shift (get_sweep s c) ≠ 0)) = true
        then pulse_timer_high.set_timer_high (get_t_hi s c)
          (sweep_target_period c (get_sweep s c) (sweep_current_period (get_t_lo s c) (get_t_hi s c)) >>> 8)
        else (get_t_hi s c)) := by
  rcases hc with rfl | rfl
  · simp only [get_sweep, get_t_lo, get_t_hi, get_pulse_one, apu_regs.pulse1_sweep, apu_regs.pulse1_t_lo, apu_regs.pulse1_t_hi]
    cases hr : s.pulse1.sweep_reload <;>
      by_cases h0 : s.pulse1.sweep_counter = 0 <;>
      by_cases he : s.r.raw 1 / 128 % 2 = 0 <;>
      by_cases hs : s.r.raw 1 % 8 = 0 <;>
      by_cases hsil : (sweep_current_period (s.r.raw 2) (s.r.raw 3) < 8 ∨
        sweep_target_period 1 (s.r.raw 1)
          (sweep_current_period (s.r.raw 2) (s.r.raw 3)) > 0x7FF) <;>
      simp [sweep_tick_ch, hr, h0, he, hs, hsil, get_sweep, get_t_lo, get_t_hi, set_t_lo,
        set_t_hi, apu_regs.set_raw, apu_regs.pulse1_sweep, apu_regs.pulse1_t_lo, apu_regs.pulse1_t_hi]
  · simp only [get_sweep, get_t_lo, get_t_hi, get_pulse_two, apu_regs.pulse2_sweep, apu_regs.pulse2_t_lo, apu_regs.pulse2_t_hi]
    cases hr : s.pulse2.sweep_reload <;>
      by_cases h0 : s.pulse2.sweep_counter = 0 <;>
      by_cases he : s.r.raw 5 / 128 % 2 = 0 <;>
      by_cases hs : s.r.raw 5 % 8 = 0 <;>
      by_cases hsil : (sweep_current_period (s.r.raw 6) (s.r.raw 7) < 8 ∨
        sweep_target_period 2 (s.r.raw 5)
          (sweep_current_period (s.r.raw 6) (s.r.raw 7)) > 0x7FF) <;>
      simp [sweep_tick_ch, hr, h0, he, hs, hsil, get_sweep, get_t_lo, get_t_hi, set_t_lo,
        set_t_hi, apu_regs.set_raw, apu_regs.pulse2_sweep, apu_regs.pulse2_t_lo, apu_regs.pulse2_t_hi]

theorem sweep_tick_effect (s : apu) (c : Nat) (hc : c = 1 ∨ c = 2) :
    (get_pulse (sweep_tick s) c).sweep_reload = false ∧
    (get_pulse (sweep_tick s) c).sweep_counter =
      (if (get_pulse s c).sweep_reload = true then pulse_sweep.period (get_sweep s c)
        else if (get_pulse s c).sweep_counter ≠ 0 then ((get_pulse s c).sweep_counter + 255) % 256
        else if pulse_sweep.enabled (get_sweep s c) ≠ 0 then pulse_sweep.period (get_sweep s c)
        else (get_pulse s c).sweep_counter) ∧
    get_t_lo (sweep_tick s) c =
      (if (decide ((get_pulse s c).sweep_counter = 0) && decide (pulse_sweep.enabled (get_sweep s c) ≠ 0) &&
        !(decide (pulse_sweep.enabled (get_sweep s c) ≠ 0) &&
          decide (sweep_current_period (get_t_lo s c) (get_t_hi s c) < 8 ∨
            sweep_target_period c (get_sweep s c) (sweep_current_period (get_t_lo s c) (get_t_hi s c)) > 0x7FF)) &&
        decide (pulse_sweep.shift (get_sweep s c) ≠ 0)) = true
        then sweep_target_period c (get_sweep s c) (sweep_current_period (get_t_lo s c) (get_t_hi s c)) &&& 0xFF
        else (get_t_lo s c)) ∧
    get_t_hi (sweep_tick s) c =
      (if (decide ((get_pulse s c).sweep_counter = 0) && decide (pulse_sweep.enabled (get_sweep s c) ≠ 0) &&
        !(decide (pulse_sweep.enabled (get_sweep s c) ≠ 0) &&
          decide (sweep_current_period (get_t_lo s c) (get_t_hi s c) < 8 ∨
            sweep_target_period c (get_sweep s c) (sweep_current_period (get_t_lo s c) (get_t_hi s c)) > 0x7FF)) &&
        decide (pulse_sweep.shift (get_sweep s c) ≠ 0)) = true
        then pulse_timer_high.set_timer_high (get_t_hi s c)
          (sweep_target_period c (get_sweep s c) (sweep_current_period (get_t_lo s c) (get_t_hi s c)) >>> 8)
        else (get_t_hi s c)) := by
  rcases hc with rfl | rfl
  · have e := sweep_tick_ch_effect s 1 (Or.inl rfl)
    have h2 : (sweep_tick s).r.raw 2 = (sweep_tick_ch s 1).r.raw 2 :=
      sweep_tick_ch_raw_other (sweep_tick_ch s 1) 2 2 (by decide) (by decide)
    have h3 : (sweep_tick s).r.raw 3 = (sweep_tick_ch s 1).r.raw 3 :=
      sweep_tick_ch_raw_other (sweep_tick_ch s 1) 2 3 (by decide) (by decide)
    have hp : (sweep_tick s).pulse1 = (sweep_tick_ch s 1).pulse1 :=
      sweep_tick_ch_two_pulse1 (sweep_tick_ch s 1)
    simp only [get_pulse_one, get_t_lo, get_t_hi, apu_regs.pulse1_t_lo, apu_regs.pulse1_t_hi,
      if_true] at e ⊢
    rw [h2, h3, hp]
    exact e
  · have e := sweep_tick_ch_effect (sweep_tick_ch s 1) 2 (Or.inr rfl)
    have h5 : (sweep_tick_ch s 1).r.raw 5 = s.r.raw 5 :=
      sweep_tick_ch_raw_other s 1 5 (by decide) (by decide)
    have h6 : (sweep_tick_ch s 1).r.raw 6 = s.r.raw 6 :=
      sweep_tick_ch_raw_other s 1 6 (by decide) (by decide)
    have h7 : (sweep_tick_ch s 1).r.raw 7 = s.r.raw 7 :=
      sweep_tick_ch_raw_other s 1 7 (by decide) (by decide)
    have hp : (sweep_tick_ch s 1).pulse2 = s.pulse2 := sweep_tick_ch_one_pulse2 s
    simp only [get_pulse_two, get_sweep, get_t_lo, get_t_hi, apu_regs.pulse2_sweep,
      apu_regs.pulse2_t_lo, apu_regs.pulse2_t_hi, h5, h6, h7, hp] at e
    simp only [get_pulse_two, get_sweep, get_t_lo, get_t_hi, apu_regs.pulse2_sweep,
      apu_regs.pulse2_t_lo, apu_regs.pulse2_t_hi]
    exact e

/-- C19: `sweep_tick` on a channel (divider a byte).  The reload flag is clear
afterwards.  The divider becomes `sweep.period` if the reload flag was set,
else the old divider minus one if that was non-zero, else `sweep.period` if
the sweep is enabled, else it stays 0.  The timer registers are written
exactly when the old divider was 0, the sweep is enabled, the shift is
non-zero and the newly computed `sweep_silenced` is false; the new period
then equals the target period and the length-load bits of the timer-high
byte are kept.  In every other case timer-low and timer-high are unchanged. -/
theorem sweep_tick_divider_and_writeback (s : apu) (c : Nat) (hc : c = 1 ∨ c = 2)
    (hcnt : (get_pulse s c).sweep_counter < 256) :
    (get_pulse (sweep_tick s) c).sweep_reload = false ∧
    ((get_pulse s c).sweep_reload = true →
      (get_pulse (sweep_tick s) c).sweep_counter = pulse_sweep.period (get_sweep s c)) ∧
    ((get_pulse s c).sweep_reload = false → (get_pulse s c).sweep_counter ≠ 0 →
      (get_pulse (sweep_tick s) c).sweep_counter = (get_pulse s c).sweep_counter - 1) ∧
    ((get_pulse s c).sweep_reload = false → (get_pulse s c).sweep_counter = 0 →
      pulse_sweep.enabled (get_sweep s c) = 1 →
      (get_pulse (sweep_tick s) c).sweep_counter = pulse_sweep.period (get_sweep s c)) ∧
    ((get_pulse s c).sweep_reload = false → (get_pulse s c).sweep_counter = 0 →
      pulse_sweep.enabled (get_sweep s c) = 0 →
      (get_pulse (sweep_tick s) c).sweep_counter = 0) ∧
    (((get_pulse s c).sweep_counter = 0 ∧ pulse_sweep.enabled (get_sweep s c) = 1 ∧
        pulse_sweep.shift (get_sweep s c) ≠ 0 ∧
        (get_pulse (sweep_tick s) c).sweep_silenced = false) →
      sweep_current_period (get_t_lo (sweep_tick s) c) (get_t_hi (sweep_tick s) c) =
        sweep_target_period c (get_sweep s c)
          (sweep_current_period (get_t_lo s c) (get_t_hi s c)) ∧
      pulse_timer_high.len_counter_load (get_t_hi (sweep_tick s) c) =
        pulse_timer_high.len_counter_load (get_t_hi s c)) ∧
    (¬ ((get_pulse s c).sweep_counter = 0 ∧ pulse_sweep.enabled (get_sweep s c) = 1 ∧
        pulse_sweep.shift (get_sweep s c) ≠ 0 ∧
        (get_pulse (sweep_tick s) c).sweep_silenced = false) →
      get_t_lo (sweep_tick s) c = get_t_lo s c ∧ get_t_hi (sweep_tick s) c = get_t_hi s c) := by
  obtain ⟨e1, e2, e3, e4⟩ := sweep_tick_effect s c hc
  have hsil := sweep_tick_sweep_silenced_eq s c hc
  rw [← hsil] at e3 e4
  have hen : (pulse_sweep.enabled (get_sweep s c) ≠ 0) ↔
      pulse_sweep.enabled (get_sweep s c) = 1 := by
    simp only [pulse_sweep.enabled]
    omega
  have hadj : (decide ((get_pulse s c).sweep_counter = 0) &&
      decide (pulse_sweep.enabled (get_sweep s c) ≠ 0) &&
      !(get_pulse (sweep_tick s) c).sweep_silenced &&
      decide (pulse_sweep.shift (get_sweep s c) ≠ 0)) = true ↔
      ((get_pulse s c).sweep_counter = 0 ∧ pulse_sweep.enabled (get_sweep s c) = 1 ∧
        pulse_sweep.shift (get_sweep s c) ≠ 0 ∧
        (get_pulse (sweep_tick s) c).sweep_silenced = false) := by
    rw [← hen]
    cases (get_pulse (sweep_tick s) c).sweep_silenced <;> simp
    all_goals tauto
  refine ⟨e1, ?_, ?_, ?_, ?_, ?_, ?_⟩
  · intro h
    rw [e2, if_pos h]
  · intro h h0
    rw [e2, if_neg (by simp [h]), if_pos h0]
    omega
  · intro h h0 he
    rw [e2, if_neg (by simp [h]), if_neg (by simp [h0]), if_pos (hen.mpr he)]
  · intro h h0 he
    rw [e2, if_neg (by simp [h]), if_neg (by simp [h0]), if_neg (by rw [he]; simp)]
    exact h0
  · intro hcond
    rw [e3, e4, if_pos (hadj.mpr hcond), if_pos (hadj.mpr hcond)]
    obtain ⟨_, he, _, hs⟩ := hcond
    rw [hsil, decide_eq_true (hen.mpr he)] at hs
    have hle : sweep_target_period c (get_sweep s c)
        (sweep_current_period (get_t_lo s c) (get_t_hi s c)) ≤ 0x7FF := by
      by_contra hgt
      have : (sweep_current_period (get_t_lo s c) (get_t_hi s c) < 8 ∨
          sweep_target_period c (get_sweep s c)
            (sweep_current_period (get_t_lo s c) (get_t_hi s c)) > 0x7FF) :=
        Or.inr (by omega)
      rw [decide_eq_true this] at hs
      exact absurd hs (by decide)
    generalize sweep_target_period c (get_sweep s c)
      (sweep_current_period (get_t_lo s c) (get_t_hi s c)) = tgt at hle ⊢
    have hand : tgt &&& 0xFF = tgt % 256 := Nat.and_pow_two_sub_one_eq_mod tgt 8
    have hshr : tgt >>> 8 = tgt / 256 := Nat.shiftRight_eq_div_pow tgt 8
    rw [hand, hshr, sweep_current_period_eq _ _ (Nat.mod_lt _ (by decide))]
    simp only [pulse_timer_high.set_timer_high, pulse_timer_high.len_counter_load]
    constructor <;> omega
  · intro hcond
    have hf : ¬ ((decide ((get_pulse s c).sweep_counter = 0) &&
        decide (pulse_sweep.enabled (get_sweep s c) ≠ 0) &&
        !(get_pulse (sweep_tick s) c).sweep_silenced &&
        decide (pulse_sweep.shift (get_sweep s c) ≠ 0)) = true) := fun h => hcond (hadj.mp h)
    rw [e3, e4, if_neg hf, if_neg hf]
    exact ⟨rfl, rfl⟩

theorem sweep_tick_divider_and_writeback_witness :
    (get_pulse (sweep_tick (run (apu_reset apu_zero)
      [op.main_write 0x00 2, op.main_write 0x01 3, op.main_write 0x81 1])) 1).sweep_counter =
      pulse_sweep.period (get_sweep (run (apu_reset apu_zero)
        [op.main_write 0x00 2, op.main_write 0x01 3, op.main_write 0x81 1]) 1) ∧
    sweep_current_period
      (get_t_lo (sweep_tick (run (apu_reset apu_zero)
        [op.main_write 0x00 2, op.main_write 0x01 3, op.main_write 0x81 1])) 1)
      (get_t_hi (sweep_tick (run (apu_reset apu_zero)
        [op.main_write 0x00 2, op.main_write 0x01 3, op.main_write 0x81 1])) 1) =
      sweep_target_period 1
        (get_sweep (run (apu_reset apu_zero)
          [op.main_write 0x00 2, op.main_write 0x01 3, op.main_write 0x81 1]) 1)
        (sweep_current_period
          (get_t_lo (run (apu_reset apu_zero)
            [op.main_write 0x00 2, op.main_write 0x01 3, op.main_write 0x81 1]) 1)
          (get_t_hi (run (apu_reset apu_zero)
            [op.main_write 0x00 2, op.main_write 0x01 3, op.main_write 0x81 1]) 1)) :=
  ⟨(sweep_tick_divider_and_writeback (run (apu_reset apu_zero)
      [op.main_write 0x00 2, op.main_write 0x01 3, op.main_write 0x81 1]) 1 (Or.inl rfl)
      (by decide)).2.1 (by decide),
   ((sweep_tick_divider_and_writeback (run (apu_reset apu_zero)
      [op.main_write 0x00 2, op.main_write 0x01 3, op.main_write 0x81 1]) 1 (Or.inl rfl)
      (by decide)).2.2.2.2.2.1 ⟨by decide, by decide, by decide, by decide⟩).1⟩



/-! ## Length counter rules -/

theorem length_counter_tick_pulses_before_stat (s : apu) :
    (length_counter_tick s).pulse1 =
      (length_counter_tick_ch (length_counter_tick_ch s 1) 2).pulse1 ∧
    (length_counter_tick s).pulse2 =
      (length_counter_tick_ch (length_counter_tick_ch s 1) 2).pulse2 := by
  simp [length_counter_tick]

/-- Writing bits 0 and 1 of a byte leaves bit `i` alone for `i ≥ 2`. -/
theorem testBit_set_len_counter_stat (x v1 v2 i : Nat) (hi : 2 ≤ i) :
    (apu_stat.set_pulse2_len_counter_stat (apu_stat.set_pulse1_len_counter_stat x v1)
      v2).testBit i = x.testBit i := by
  have h : (apu_stat.set_pulse2_len_counter_stat (apu_stat.set_pulse1_len_counter_stat x v1)
      v2) >>> 2 = x >>> 2 := by
    rw [Nat.shiftRight_eq_div_pow, Nat.shiftRight_eq_div_pow]
    simp only [apu_stat.set_pulse2_len_counter_stat, apu_stat.set_pulse1_len_counter_stat]
    omega
  have e : i = 2 + (i - 2) := by omega
  rw [e, ← Nat.testBit_shiftRight, ← Nat.testBit_shiftRight, h]

/-- C21: `length_counter_tick` on a channel (length counter a byte) sets
`len_counter_silenced` to (old counter = 0 and halt clear), decrements the
counter by one exactly when halt is clear and the old counter is non-zero and
otherwise leaves it unchanged; afterwards status bit 0 (resp. bit 1) tells
whether the resulting length counter of pulse 1 (resp. pulse 2) is positive,
and every other status bit is as before. -/
theorem length_counter_tick_rules (s : apu) (c : Nat) (hc : c = 1 ∨ c = 2)
    (hlen : (get_pulse s c).len_counter < 256) :
    (get_pulse (length_counter_tick s) c).len_counter_silenced =
      decide ((get_pulse s c).len_counter = 0 ∧
        pulse_main.env_loop_len_counter_halt (get_p_main s c) = 0) ∧
    (pulse_main.env_loop_len_counter_halt (get_p_main s c) = 0 →
      (get_pulse s c).len_counter ≠ 0 →
      (get_pulse (length_counter_tick s) c).len_counter = (get_pulse s c).len_counter - 1) ∧
    (¬ (pulse_main.env_loop_len_counter_halt (get_p_main s c) = 0 ∧
        (get_pulse s c).len_counter ≠ 0) →
      (get_pulse (length_counter_tick s) c).len_counter = (get_pulse s c).len_counter) ∧
    apu_stat.pulse1_len_counter_stat (length_counter_tick s).r.stat =
      (if (length_counter_tick s).pulse1.len_counter > 0 then 1 else 0) ∧
    apu_stat.pulse2_len_counter_stat (length_counter_tick s).r.stat =
      (if (length_counter_tick s).pulse2.len_counter > 0 then 1 else 0) ∧
    (∀ i : Nat, 2 ≤ i →
      (length_counter_tick s).r.stat.testBit i = s.r.stat.testBit i) := by
  obtain ⟨p1, p2⟩ := length_counter_tick_pulses_before_stat s
  have hstat := length_counter_tick_stat s
  rw [← p1, ← p2] at hstat
  have hchan :
      (get_pulse (length_counter_tick s) c).len_counter_silenced =
        decide ((get_pulse s c).len_counter = 0 ∧
          pulse_main.env_loop_len_counter_halt (get_p_main s c) = 0) ∧
      (get_pulse (length_counter_tick s) c).len_counter =
        (if pulse_main.env_loop_len_counter_halt (get_p_main s c) = 0 ∧
            (get_pulse s c).len_counter ≠ 0 then ((get_pulse s c).len_counter + 255) % 256
          else (get_pulse s c).len_counter) := by
    rcases hc with rfl | rfl
    · simp only [get_pulse_one, get_p_main, apu_regs.pulse1_main, if_true,
        pulse_main.env_loop_len_counter_halt, length_counter_tick_pulse1]
      exact ⟨trivial, trivial⟩
    · simp only [get_pulse_two, get_p_main, apu_regs.pulse2_main,
        pulse_main.env_loop_len_counter_halt, length_counter_tick_pulse2]
      exact ⟨rfl, rfl⟩
  refine ⟨hchan.1, ?_, ?_, ?_, ?_, ?_⟩
  · intro hh h0
    rw [hchan.2, if_pos ⟨hh, h0⟩]
    omega
  · intro hn
    rw [hchan.2, if_neg hn]
  · rw [hstat]
    simp only [apu_stat.pulse1_len_counter_stat, apu_stat.set_pulse1_len_counter_stat,
      apu_stat.set_pulse2_len_counter_stat]
    split_ifs <;> omega
  · rw [hstat]
    simp only [apu_stat.pulse2_len_counter_stat, apu_stat.set_pulse1_len_counter_stat,
      apu_stat.set_pulse2_len_counter_stat]
    split_ifs <;> omega
  · intro i hi
    rw [hstat]
    exact testBit_set_len_counter_stat _ _ _ i hi

theorem length_counter_tick_rules_witness :
    (get_pulse (length_counter_tick (run (apu_reset apu_zero)
      [op.ctrl_write 0x01, op.main_write 0x08 3])) 1).len_counter =
      (get_pulse (run (apu_reset apu_zero)
        [op.ctrl_write 0x01, op.main_write 0x08 3]) 1).len_counter - 1 :=
  (length_counter_tick_rules (run (apu_reset apu_zero)
    [op.ctrl_write 0x01, op.main_write 0x08 3]) 1 (Or.inl rfl) (by decide)).2.1
    (by decide) (by decide)



/-! ## Frame sequencer step range -/

theorem apu_writeb_seq_step (s : apu) (b : Nat) (a : Fin NUM_REGS) :
    (apu_writeb s b a).seq_step = s.seq_step := by
  unfold apu_writeb
  simp only []
  split_ifs <;> rfl

/-- C22: in every state reachable from reset the frame-sequencer step lies
inside the schedule of the current mode: `0 ≤ seq_step < 4` in mode 0 and
`0 ≤ seq_step < 5` in mode 1.  Hence the step is always below the number of
steps when `seq_tick` increments it, so the wrap-around comparison is hit and
the step never passes the end of the schedule. -/
theorem reachable_seq_step_in_schedule (s : apu) (hr : reachable s) :
    (seq.mode s.r.seq = 0 → 0 ≤ s.seq_step ∧ s.seq_step < 4) ∧
    (seq.mode s.r.seq = 1 → 0 ≤ s.seq_step ∧ s.seq_step < 5) ∧
    0 ≤ (seq_tick s).1.seq_step ∧
    (seq_tick s).1.seq_step < (if seq.mode s.r.seq = 0 then 4 else 5) := by
  have key : 0 ≤ s.seq_step ∧ s.seq_step < (if s.r.seq / 128 % 2 = 0 then 4 else 5) := by
    refine reachable_induction
      (fun t => 0 ≤ t.seq_step ∧ t.seq_step < (if t.r.seq / 128 % 2 = 0 then 4 else 5))
      ?_ ?_ s hr
    · intro s0
      have e1 : (apu_reset s0).seq_step = 0 := rfl
      have e2 : (apu_reset s0).r.seq = 0 := rfl
      show 0 ≤ (apu_reset s0).seq_step ∧
        (apu_reset s0).seq_step < (if (apu_reset s0).r.seq / 128 % 2 = 0 then 4 else 5)
      rw [e1, e2]
      exact ⟨by decide, by decide⟩
    · intro t o ht
      cases o with
      | main_write b a =>
        show 0 ≤ (apu_writeb t b a).seq_step ∧
          (apu_writeb t b a).seq_step < (if (apu_writeb t b a).r.seq / 128 % 2 = 0 then 4 else 5)
        rw [apu_writeb_seq_step, apu_writeb_r]
        exact ht
      | ctrl_write b =>
        show 0 ≤ (ctrl_writeb t b).seq_step ∧
          (ctrl_writeb t b).seq_step < (if (ctrl_writeb t b).r.seq / 128 % 2 = 0 then 4 else 5)
        rw [ctrl_writeb_eq]
        exact ht
      | seq_write b =>
        obtain ⟨_, e2, _⟩ := seq_writeb_seq_step_irq t b
        show 0 ≤ (seq_writeb t b).seq_step ∧
          (seq_writeb t b).seq_step < (if (seq_writeb t b).r.seq / 128 % 2 = 0 then 4 else 5)
        rw [e2]
        constructor
        · exact le_refl 0
        · split_ifs <;> decide
      | stat_read => exact ht
      | sample_tick =>
        show 0 ≤ (apu_tick t).1.seq_step ∧
          (apu_tick t).1.seq_step < (if (apu_tick t).1.r.seq / 128 % 2 = 0 then 4 else 5)
        rw [apu_tick_seq_step, apu_tick_r]
        exact ht
      | sequencer_tick =>
        show 0 ≤ (seq_tick t).1.seq_step ∧
          (seq_tick t).1.seq_step < (if (seq_tick t).1.r.seq / 128 % 2 = 0 then 4 else 5)
        rw [seq_tick_seq_step, seq_tick_seq]
        simp only [seq.mode]
        obtain ⟨h0, h1⟩ := ht
        split_ifs at h1 ⊢ <;> omega
  have hnext := seq_tick_seq_step s
  simp only [seq.mode] at hnext ⊢
  obtain ⟨h0, h1⟩ := key
  refine ⟨?_, ?_, ?_, ?_⟩
  · intro hm
    rw [if_pos hm] at h1
    exact ⟨h0, h1⟩
  · intro hm
    rw [if_neg (by omega)] at h1
    exact ⟨h0, h1⟩
  · rw [hnext]
    split_ifs <;> omega
  · rw [hnext]
    split_ifs at h1 ⊢ <;> omega

theorem reachable_seq_step_in_schedule_witness :
    seq.mode (run (apu_reset apu_zero)
      [op.sequencer_tick, op.sequencer_tick, op.sequencer_tick, op.seq_write 0x80,
        op.sequencer_tick, op.sequencer_tick, op.sequencer_tick, op.sequencer_tick]).r.seq = 1 ∧
    0 ≤ (run (apu_reset apu_zero)
      [op.sequencer_tick, op.sequencer_tick, op.sequencer_tick, op.seq_write 0x80,
        op.sequencer_tick, op.sequencer_tick, op.sequencer_tick,
        op.sequencer_tick]).seq_step ∧
    (run (apu_reset apu_zero)
      [op.sequencer_tick, op.sequencer_tick, op.sequencer_tick, op.seq_write 0x80,
        op.sequencer_tick, op.sequencer_tick, op.sequencer_tick,
        op.sequencer_tick]).seq_step < 5 :=
  ⟨by decide, (reachable_seq_step_in_schedule _ ⟨apu_zero, _, rfl⟩).2.1 (by decide)⟩

end Emux
